import Mathlib

/-!
Verification of the HL due-diligence monitor (`src/hl_monitor.py`).

The development shallowly embeds the program's data model and operations:

* the process clock (`datetime.now()`) is an explicit `PyDateTime` argument;
* the filesystem is an association list from path strings to file contents;
* the two outbound network services (the LLM API and the SMTP relay) are
  oracle parameters supplying each call's outcome;
* fallible Python code returns `Except PyError`;
* Python module/local scoping, which decides whether the name `timedelta`
  resolves inside `create_email_html`, is embedded as explicit name lists
  taken from the module's binding statements.

Definitions mirror the Python source function by function; string literals are
transcribed byte-for-byte from the source file (the file's text stores the
emoji as UTF-8 mojibake code points, which are reproduced here via escapes).
-/

/-- Exceptions the embedded code can raise. -/
inductive PyError where
  /-- `NameError: name '<n>' is not defined`. -/
  | nameError (n : String)
  /-- `TypeError`, e.g. `re.sub` applied to `None`. -/
  | typeError
  /-- `json.JSONDecodeError` from `json.load` on malformed content. -/
  | jsonDecodeError
  /-- A failure raised by the LLM service client (auth, transport, ...). -/
  | apiError
  /-- A failure raised by the SMTP send (auth, transport, ...). -/
  | smtpError
deriving DecidableEq, Repr

deriving instance DecidableEq for Except

/-- A point in time as `datetime.now()` returns it: the clock is modelled as an
explicit argument everywhere the Python code calls `datetime.now()`. -/
structure PyDateTime where
  year : Nat
  month : Nat
  day : Nat
  hour : Nat
  minute : Nat
  second : Nat
  microsecond : Nat
deriving DecidableEq, Repr

/-- A date is valid when its fields are in `datetime`'s ranges (we only need
the bounds that make the string formats below faithful; `%Y` is rendered
four-digit, which matches CPython for years `1000..9999`). -/
def PyDateTime.valid (t : PyDateTime) : Prop :=
  1000 ≤ t.year ∧ t.year ≤ 9999 ∧ 1 ≤ t.month ∧ t.month ≤ 12 ∧
    1 ≤ t.day ∧ t.day ≤ 31 ∧ t.hour ≤ 23 ∧ t.minute ≤ 59 ∧ t.second ≤ 59 ∧
    t.microsecond ≤ 999999

instance (t : PyDateTime) : Decidable t.valid := by
  unfold PyDateTime.valid
  infer_instance

/-- Decimal digit character for `n % 10`. -/
def decDigit (n : Nat) : Char := Char.ofNat (48 + n % 10)

/-- Two-digit zero-padded decimal, as `%d`, `%m`, `%H`, `%M`, `%S` print
values below 100. -/
def pad2 (n : Nat) : List Char := [decDigit (n / 10), decDigit n]

/-- Four-digit zero-padded decimal, as `%Y` prints years `1000..9999` (and as
`isoformat` prints every year). -/
def pad4 (n : Nat) : List Char :=
  [decDigit (n / 1000), decDigit (n / 100), decDigit (n / 10), decDigit n]

/-- Six-digit zero-padded decimal, as `isoformat` prints microseconds. -/
def pad6 (n : Nat) : List Char :=
  [decDigit (n / 100000), decDigit (n / 10000), decDigit (n / 1000),
    decDigit (n / 100), decDigit (n / 10), decDigit n]

/-- English month names used by `strftime("%B")` (months `1..12`). -/
def monthName (m : Nat) : String :=
  [ "January", "February", "March", "April", "May", "June", "July",
    "August", "September", "October", "November", "December"
  ].getD (m - 1) ""

/-- `datetime.strftime("%d %B %Y")`: zero-padded day, full month name,
four-digit year. Used for the report date and for both prompts. -/
def strftimeDMY (t : PyDateTime) : String :=
  ⟨pad2 t.day⟩ ++ " " ++ monthName t.month ++ " " ++ ⟨pad4 t.year⟩

/-- `datetime.strftime("%Y-%m-%d")`: the archive-file date key. -/
def strftimeYMD (t : PyDateTime) : String :=
  ⟨pad4 t.year ++ '-' :: pad2 t.month ++ '-' :: pad2 t.day⟩

/-- `datetime.isoformat()`: `YYYY-MM-DDTHH:MM:SS[.ffffff]`, the fractional
part printed exactly when the microsecond field is nonzero. -/
def isoformat (t : PyDateTime) : String :=
  ⟨pad4 t.year ++ '-' :: pad2 t.month ++ '-' :: pad2 t.day ++
    'T' :: pad2 t.hour ++ ':' :: pad2 t.minute ++ ':' :: pad2 t.second ++
    (if t.microsecond = 0 then [] else '.' :: pad6 t.microsecond)⟩

/-- The value of `(t.replace(day=1) + timedelta(days=32)).replace(day=1)`:
day 1 of a 28..31-day month plus 32 days always lands on day 2..5 of the next
month, so after the second `replace(day=1)` this is the first day of the
month after `t`'s, time-of-day unchanged. -/
def firstOfNextMonth (t : PyDateTime) : PyDateTime :=
  if t.month = 12 then
    { t with year := t.year + 1, month := 1, day := 1 }
  else
    { t with month := t.month + 1, day := 1 }

/-- The filesystem visible to the program: an association list from path to
file content, first binding for a path wins. -/
def FS := List (String × String)

instance : DecidableEq FS := by
  unfold FS
  infer_instance

/-- Read a file (`open(path)` / `Path.exists`): `none` when absent. -/
def getFile (fs : FS) (p : String) : Option String :=
  match fs with
  | [] => none
  | (q, v) :: rest => if q = p then some v else getFile rest p

/-- Write a file (`open(path, "w")`): overwrite in place, or create. -/
def setFile (fs : FS) (p v : String) : FS :=
  match fs with
  | [] => [(p, v)]
  | (q, w) :: rest => if q = p then (p, v) :: rest else (q, w) :: setFile rest p v

theorem getFile_setFile_same (fs : FS) (p v : String) :
    getFile (setFile fs p v) p = some v := by
  induction fs with
  | nil => simp [getFile, setFile]
  | cons hd tl ih =>
    obtain ⟨q, w⟩ := hd
    by_cases h : q = p <;> simp [getFile, setFile, h, ih]

theorem getFile_setFile_other (fs : FS) (p p' v : String) (h : p' ≠ p) :
    getFile (setFile fs p v) p' = getFile fs p' := by
  induction fs with
  | nil =>
    simp only [getFile, setFile]
    rw [if_neg (fun hh => h (Eq.symm hh))]
  | cons hd tl ih =>
    obtain ⟨q, w⟩ := hd
    by_cases hq : q = p
    · subst hq
      simp only [getFile, setFile, if_pos rfl]
      rw [if_neg (fun hh => h (Eq.symm hh)), if_neg (fun hh => h (Eq.symm hh))]
    · simp only [getFile, setFile, if_neg hq]
      by_cases hq' : q = p' <;> simp [getFile, hq', ih]

/-! ## JSON layer

`save_report` writes its record with `json.dump(data, f, indent=2)` and
`load_previous_report` reads it back with `json.load`. The encoder is
embedded byte-for-byte (`ensure_ascii` default: characters outside
`0x20..0x7e` become `\uXXXX` escapes, astral characters become surrogate
pairs); the decoder is a parser for JSON objects whose values are strings,
which covers every document this program writes and the malformed-record
shapes the claims mention. -/

/-- Lowercase hex digit for `n % 16`, as Python's `'\u%04x'` formatting. -/
def hexDigit (n : Nat) : Char :=
  if n % 16 < 10 then Char.ofNat (48 + n % 16) else Char.ofNat (87 + n % 16)

/-- Numeric value of a hex digit character (both cases, as `json` accepts). -/
def hexVal (c : Char) : Option Nat :=
  if 48 ≤ c.toNat ∧ c.toNat ≤ 57 then some (c.toNat - 48)
  else if 97 ≤ c.toNat ∧ c.toNat ≤ 102 then some (c.toNat - 87)
  else if 65 ≤ c.toNat ∧ c.toNat ≤ 70 then some (c.toNat - 55)
  else none

/-- Four lowercase hex digits, as `'\u%04x'` prints values below `0x10000`. -/
def hex4 (n : Nat) : List Char :=
  [hexDigit (n / 4096), hexDigit (n / 256), hexDigit (n / 16), hexDigit n]

/-- Value of four hex digit characters. -/
def hex4Val (a b c d : Char) : Option Nat :=
  match hexVal a, hexVal b, hexVal c, hexVal d with
  | some x, some y, some z, some w => some (((x * 16 + y) * 16 + z) * 16 + w)
  | _, _, _, _ => none

/-- Encoding of one character inside a JSON string literal, following
`json.encoder` with `ensure_ascii` (the default used by `json.dump`):
`"` and `\` and the five named control escapes, `\u00xx` for other control
characters, ASCII `0x20..0x7e` verbatim, `\uxxxx` for other BMP characters,
and a surrogate pair for astral characters. -/
def escapeChar (c : Char) : List Char :=
  if c = '"' then ['\\', '"']
  else if c = '\\' then ['\\', '\\']
  else if c = '\x08' then ['\\', 'b']
  else if c = '\x0c' then ['\\', 'f']
  else if c = '\n' then ['\\', 'n']
  else if c = '\x0d' then ['\\', 'r']
  else if c = '\t' then ['\\', 't']
  else if c.toNat < 0x20 then '\\' :: 'u' :: hex4 c.toNat
  else if c.toNat ≤ 0x7e then [c]
  else if c.toNat ≤ 0xffff then '\\' :: 'u' :: hex4 c.toNat
  else
    '\\' :: 'u' :: hex4 (0xd800 + (c.toNat - 0x10000) / 0x400) ++
      '\\' :: 'u' :: hex4 (0xdc00 + (c.toNat - 0x10000) % 0x400)

/-- Body of a JSON string literal for `s` (without the enclosing quotes). -/
def escapeList (s : List Char) : List Char :=
  (s.map escapeChar).flatten

/-- A JSON string literal, quotes included. -/
def jsonStringLit (s : String) : String :=
  ⟨'"' :: escapeList s.data ++ ['"']⟩

/-- The record `save_report` builds:
`{"date": ..., "timestamp": ..., "report": ...}`. -/
structure ReportRecord where
  date : String
  timestamp : String
  report : String
deriving DecidableEq, Repr

/-- One `"key": "value"` member of the dumped record followed by `rest`:
the key and value are rendered through the string codec, the key is followed
by the `": "` separator `json.dump` uses when `indent` is set. -/
def memberChars (k v : String) (rest : List Char) : List Char :=
  '"' :: (escapeList k.data ++ '"' :: ':' :: ' ' :: ('"' :: (escapeList v.data ++ '"' :: rest)))

/-- The three members of the record document, separated by `",\n  "` (the
item separator `json.dump(..., indent=2)` writes), ending in `"\n\x7d"`. -/
def recordMembersChars (r : ReportRecord) : List Char :=
  memberChars "date" r.date (',' :: '\n' :: ' ' :: ' ' ::
    memberChars "timestamp" r.timestamp (',' :: '\n' :: ' ' :: ' ' ::
      memberChars "report" r.report ('\n' :: [Char.ofNat 0x7d])))

/-- Output of `json.dump(data, f, indent=2)` for the record: two-space
indent, `": "` after each key, fields in insertion order:
`\x7b\n  "date": ...,\n  "timestamp": ...,\n  "report": ...\n\x7d`. -/
def jsonDumpRecord (r : ReportRecord) : String :=
  ⟨Char.ofNat 0x7b :: '\n' :: ' ' :: ' ' :: recordMembersChars r⟩

/-- Parser for the body of a JSON string literal (after the opening quote):
returns the decoded characters and the input remaining after the closing
quote. Follows `json.decoder` in strict mode: raw control characters are
rejected, the eight named escapes and `\uXXXX` are decoded, and a high
surrogate escape must be followed by a low surrogate escape (the only shapes
`json.dump` emits; a lone surrogate escape is rejected here because a Lean
`Char` cannot carry it). -/
def parseStrCharsF : Nat → List Char → Option (List Char × List Char)
  | 0, _ => none
  | _ + 1, [] => none
  | fuel + 1, c :: rest =>
    if c = '"' then some ([], rest)
    else if c = '\\' then
      match rest with
      | [] => none
      | e :: rest2 =>
        if e = '"' then (parseStrCharsF fuel rest2).map (fun p => ('"' :: p.1, p.2))
        else if e = '\\' then (parseStrCharsF fuel rest2).map (fun p => ('\\' :: p.1, p.2))
        else if e = '/' then (parseStrCharsF fuel rest2).map (fun p => ('/' :: p.1, p.2))
        else if e = 'b' then (parseStrCharsF fuel rest2).map (fun p => ('\x08' :: p.1, p.2))
        else if e = 'f' then (parseStrCharsF fuel rest2).map (fun p => ('\x0c' :: p.1, p.2))
        else if e = 'n' then (parseStrCharsF fuel rest2).map (fun p => ('\n' :: p.1, p.2))
        else if e = 'r' then (parseStrCharsF fuel rest2).map (fun p => ('\x0d' :: p.1, p.2))
        else if e = 't' then (parseStrCharsF fuel rest2).map (fun p => ('\t' :: p.1, p.2))
        else if e = 'u' then
          match rest2 with
          | a :: b :: c2 :: d :: rest3 =>
            match hex4Val a b c2 d with
            | none => none
            | some e1 =>
              if 0xd800 ≤ e1 ∧ e1 ≤ 0xdbff then
                match rest3 with
                | x1 :: x2 :: a2 :: b2 :: c3 :: d2 :: rest4 =>
                  if x1 = '\\' ∧ x2 = 'u' then
                    match hex4Val a2 b2 c3 d2 with
                    | none => none
                    | some e2 =>
                      if 0xdc00 ≤ e2 ∧ e2 ≤ 0xdfff then
                        (parseStrCharsF fuel rest4).map (fun p =>
                          (Char.ofNat (0x10000 + (e1 - 0xd800) * 0x400 + (e2 - 0xdc00)) :: p.1, p.2))
                      else none
                  else none
                | _ => none
              else if 0xdc00 ≤ e1 ∧ e1 ≤ 0xdfff then none
              else (parseStrCharsF fuel rest3).map (fun p => (Char.ofNat e1 :: p.1, p.2))
          | _ => none
        else none
    else if c.toNat < 0x20 then none
    else (parseStrCharsF fuel rest).map (fun p => (c :: p.1, p.2))

/-- Parser entry point: every step of `parseStrCharsF` consumes at least one
input character, so `length + 1` units of fuel can never run out and the
wrapper behaves as the unbounded parser. -/
def parseStrChars (l : List Char) : Option (List Char × List Char) :=
  parseStrCharsF (l.length + 1) l

/-- Parse a whole JSON string literal, opening quote included. -/
def parseStringLit (l : List Char) : Option (String × List Char) :=
  match l with
  | '"' :: rest => (parseStrChars rest).map (fun p => (⟨p.1⟩, p.2))
  | _ => none

/-- Skip JSON whitespace. -/
def skipWs (l : List Char) : List Char :=
  match l with
  | c :: rest =>
    if c = ' ' ∨ c = '\t' ∨ c = '\n' ∨ c = '\x0d' then skipWs rest else l
  | [] => l

/-- Parse the members of a JSON object whose values are string literals,
positioned after a `,` (or after `\x7b` for the first member). `fuel` bounds
the recursion by the input length. -/
def parseMembers (fuel : Nat) (l : List Char) : Option (List (String × String) × List Char) :=
  match fuel with
  | 0 => none
  | fuel + 1 =>
    match parseStringLit (skipWs l) with
    | none => none
    | some (key, rest) =>
      match skipWs rest with
      | ':' :: rest2 =>
        match parseStringLit (skipWs rest2) with
        | none => none
        | some (value, rest3) =>
          match skipWs rest3 with
          | ',' :: rest4 =>
            (parseMembers fuel rest4).map (fun p => ((key, value) :: p.1, p.2))
          | c :: rest4 =>
            if c = Char.ofNat 0x7d then some ([(key, value)], rest4) else none
          | [] => none
      | _ => none

/-- Model of `json.load` restricted to top-level objects with string values:
returns the member list (in document order) when the whole input is one such
object, `none` when the document is malformed (where `json.load` raises). -/
def parseJsonObject (s : String) : Option (List (String × String)) :=
  if (skipWs s.data).head? = some (Char.ofNat 0x7b) then
    if (skipWs (skipWs s.data).tail).head? = some (Char.ofNat 0x7d) then
      if skipWs (skipWs (skipWs s.data).tail).tail = [] then some [] else none
    else
      match parseMembers (s.data.length + 1) (skipWs (skipWs s.data).tail) with
      | some (members, rest3) => if skipWs rest3 = [] then some members else none
      | none => none
  else none

/-- `dict` lookup as built by `json.load`: for duplicate keys the last
occurrence wins, as in Python. -/
def lookupLast (l : List (String × String)) (k : String) : Option String :=
  match l with
  | [] => none
  | (k', v) :: rest =>
    match lookupLast rest k with
    | some v' => some v'
    | none => if k' = k then some v else none

theorem hexVal_hexDigit_lt (r : Nat) (h : r < 16) : hexVal (hexDigit r) = some r := by
  revert r
  decide

theorem hexDigit_mod (k : Nat) : hexDigit (k % 16) = hexDigit k := by
  unfold hexDigit
  rw [Nat.mod_mod_of_dvd k (dvd_refl 16)]

theorem hexVal_hexDigit (k : Nat) : hexVal (hexDigit k) = some (k % 16) := by
  rw [← hexDigit_mod, hexVal_hexDigit_lt (k % 16) (Nat.mod_lt k (by norm_num))]

theorem hex4Val_hex4 (n : Nat) (h : n ≤ 0xffff) :
    hex4Val (hexDigit (n / 4096)) (hexDigit (n / 256)) (hexDigit (n / 16)) (hexDigit n) =
      some n := by
  unfold hex4Val
  rw [hexVal_hexDigit, hexVal_hexDigit, hexVal_hexDigit, hexVal_hexDigit]
  have key : ((n / 4096 % 16 * 16 + n / 256 % 16) * 16 + n / 16 % 16) * 16 + n % 16 = n := by
    omega
  simp only []
  rw [key]

theorem escapeList_nil : escapeList [] = [] := rfl

theorem escapeList_cons (c : Char) (cs : List Char) :
    escapeList (c :: cs) = escapeChar c ++ escapeList cs := by
  simp [escapeList]



theorem parseStrCharsF_quote (fuel : Nat) (l : List Char) :
    parseStrCharsF (fuel + 1) ('"' :: l) = some ([], l) := by
  simp [parseStrCharsF]

theorem parseStrCharsF_esc_quote (fuel : Nat) (l : List Char) :
    parseStrCharsF (fuel + 1) ('\\' :: '"' :: l) =
      (parseStrCharsF fuel l).map (fun p => ('"' :: p.1, p.2)) := by
  simp [parseStrCharsF]

theorem parseStrCharsF_esc_backslash (fuel : Nat) (l : List Char) :
    parseStrCharsF (fuel + 1) ('\\' :: '\\' :: l) =
      (parseStrCharsF fuel l).map (fun p => ('\\' :: p.1, p.2)) := by
  simp [parseStrCharsF]

theorem parseStrCharsF_esc_b (fuel : Nat) (l : List Char) :
    parseStrCharsF (fuel + 1) ('\\' :: 'b' :: l) =
      (parseStrCharsF fuel l).map (fun p => ('\x08' :: p.1, p.2)) := by
  simp [parseStrCharsF]

theorem parseStrCharsF_esc_f (fuel : Nat) (l : List Char) :
    parseStrCharsF (fuel + 1) ('\\' :: 'f' :: l) =
      (parseStrCharsF fuel l).map (fun p => ('\x0c' :: p.1, p.2)) := by
  simp [parseStrCharsF]

theorem parseStrCharsF_esc_n (fuel : Nat) (l : List Char) :
    parseStrCharsF (fuel + 1) ('\\' :: 'n' :: l) =
      (parseStrCharsF fuel l).map (fun p => ('\n' :: p.1, p.2)) := by
  simp [parseStrCharsF]

theorem parseStrCharsF_esc_r (fuel : Nat) (l : List Char) :
    parseStrCharsF (fuel + 1) ('\\' :: 'r' :: l) =
      (parseStrCharsF fuel l).map (fun p => ('\x0d' :: p.1, p.2)) := by
  simp [parseStrCharsF]

theorem parseStrCharsF_esc_t (fuel : Nat) (l : List Char) :
    parseStrCharsF (fuel + 1) ('\\' :: 't' :: l) =
      (parseStrCharsF fuel l).map (fun p => ('\t' :: p.1, p.2)) := by
  simp [parseStrCharsF]

theorem parseStrCharsF_u (fuel : Nat) (a b c2 d : Char) (l : List Char) (e1 : Nat)
    (hx : hex4Val a b c2 d = some e1)
    (hs1 : ¬(0xd800 ≤ e1 ∧ e1 ≤ 0xdbff)) (hs2 : ¬(0xdc00 ≤ e1 ∧ e1 ≤ 0xdfff)) :
    parseStrCharsF (fuel + 1) ('\\' :: 'u' :: a :: b :: c2 :: d :: l) =
      (parseStrCharsF fuel l).map (fun p => (Char.ofNat e1 :: p.1, p.2)) := by
  simp [parseStrCharsF, hx, hs1, hs2]

theorem parseStrCharsF_u_pair (fuel : Nat) (a b c2 d a2 b2 c3 d2 : Char) (l : List Char)
    (e1 e2 : Nat)
    (hx1 : hex4Val a b c2 d = some e1) (hx2 : hex4Val a2 b2 c3 d2 = some e2)
    (hs1 : 0xd800 ≤ e1 ∧ e1 ≤ 0xdbff) (hs2 : 0xdc00 ≤ e2 ∧ e2 ≤ 0xdfff) :
    parseStrCharsF (fuel + 1)
        ('\\' :: 'u' :: a :: b :: c2 :: d :: '\\' :: 'u' :: a2 :: b2 :: c3 :: d2 :: l) =
      (parseStrCharsF fuel l).map (fun p =>
        (Char.ofNat (0x10000 + (e1 - 0xd800) * 0x400 + (e2 - 0xdc00)) :: p.1, p.2)) := by
  simp [parseStrCharsF, hx1, hx2, hs1, hs2]

theorem parseStrCharsF_plain (fuel : Nat) (c : Char) (l : List Char)
    (h1 : ¬c = '"') (h2 : ¬c = '\\') (h3 : ¬c.toNat < 0x20) :
    parseStrCharsF (fuel + 1) (c :: l) =
      (parseStrCharsF fuel l).map (fun p => (c :: p.1, p.2)) := by
  simp [parseStrCharsF, h1, h2, h3]

theorem escapeChar_control (c : Char) (h1 : ¬c = '"') (h2 : ¬c = '\\')
    (h3 : ¬c = '\x08') (h4 : ¬c = '\x0c') (h5 : ¬c = '\n') (h6 : ¬c = '\x0d')
    (h7 : ¬c = '\t') (h8 : c.toNat < 0x20) :
    escapeChar c = '\\' :: 'u' :: hex4 c.toNat := by
  unfold escapeChar
  rw [if_neg h1, if_neg h2, if_neg h3, if_neg h4, if_neg h5, if_neg h6, if_neg h7,
    if_pos h8]

theorem escapeChar_plain (c : Char) (h1 : ¬c = '"') (h2 : ¬c = '\\')
    (h3 : ¬c = '\x08') (h4 : ¬c = '\x0c') (h5 : ¬c = '\n') (h6 : ¬c = '\x0d')
    (h7 : ¬c = '\t') (h8 : ¬c.toNat < 0x20) (h9 : c.toNat ≤ 0x7e) :
    escapeChar c = [c] := by
  unfold escapeChar
  rw [if_neg h1, if_neg h2, if_neg h3, if_neg h4, if_neg h5, if_neg h6, if_neg h7,
    if_neg h8, if_pos h9]

theorem escapeChar_bmp (c : Char) (h1 : ¬c = '"') (h2 : ¬c = '\\')
    (h3 : ¬c = '\x08') (h4 : ¬c = '\x0c') (h5 : ¬c = '\n') (h6 : ¬c = '\x0d')
    (h7 : ¬c = '\t') (h8 : ¬c.toNat < 0x20) (h9 : ¬c.toNat ≤ 0x7e)
    (h10 : c.toNat ≤ 0xffff) :
    escapeChar c = '\\' :: 'u' :: hex4 c.toNat := by
  unfold escapeChar
  rw [if_neg h1, if_neg h2, if_neg h3, if_neg h4, if_neg h5, if_neg h6, if_neg h7,
    if_neg h8, if_neg h9, if_pos h10]

theorem escapeChar_astral (c : Char) (h1 : ¬c = '"') (h2 : ¬c = '\\')
    (h3 : ¬c = '\x08') (h4 : ¬c = '\x0c') (h5 : ¬c = '\n') (h6 : ¬c = '\x0d')
    (h7 : ¬c = '\t') (h8 : ¬c.toNat < 0x20) (h9 : ¬c.toNat ≤ 0x7e)
    (h10 : ¬c.toNat ≤ 0xffff) :
    escapeChar c = '\\' :: 'u' :: hex4 (0xd800 + (c.toNat - 0x10000) / 0x400) ++
      '\\' :: 'u' :: hex4 (0xdc00 + (c.toNat - 0x10000) % 0x400) := by
  unfold escapeChar
  rw [if_neg h1, if_neg h2, if_neg h3, if_neg h4, if_neg h5, if_neg h6, if_neg h7,
    if_neg h8, if_neg h9, if_neg h10]

/-- Parsing the escape of one character off the front of the input consumes
exactly that escape and recurses on the rest. -/
theorem parseStrCharsF_escapeChar (c : Char) (tail : List Char) (m : Nat) :
    parseStrCharsF (m + 1) (escapeChar c ++ tail) =
      (parseStrCharsF m tail).map (fun p => (c :: p.1, p.2)) := by
  have hv : c.toNat < 0xd800 ∨ (0xdfff < c.toNat ∧ c.toNat < 0x110000) := c.valid
  by_cases h1 : c = '"'
  · subst h1
    rw [show escapeChar '"' = ['\\', '"'] from rfl]
    simp only [List.cons_append, List.nil_append]
    rw [parseStrCharsF_esc_quote]
  by_cases h2 : c = '\\'
  · subst h2
    rw [show escapeChar '\\' = ['\\', '\\'] from rfl]
    simp only [List.cons_append, List.nil_append]
    rw [parseStrCharsF_esc_backslash]
  by_cases h3 : c = '\x08'
  · subst h3
    rw [show escapeChar '\x08' = ['\\', 'b'] from rfl]
    simp only [List.cons_append, List.nil_append]
    rw [parseStrCharsF_esc_b]
  by_cases h4 : c = '\x0c'
  · subst h4
    rw [show escapeChar '\x0c' = ['\\', 'f'] from rfl]
    simp only [List.cons_append, List.nil_append]
    rw [parseStrCharsF_esc_f]
  by_cases h5 : c = '\n'
  · subst h5
    rw [show escapeChar '\n' = ['\\', 'n'] from rfl]
    simp only [List.cons_append, List.nil_append]
    rw [parseStrCharsF_esc_n]
  by_cases h6 : c = '\x0d'
  · subst h6
    rw [show escapeChar '\x0d' = ['\\', 'r'] from rfl]
    simp only [List.cons_append, List.nil_append]
    rw [parseStrCharsF_esc_r]
  by_cases h7 : c = '\t'
  · subst h7
    rw [show escapeChar '\t' = ['\\', 't'] from rfl]
    simp only [List.cons_append, List.nil_append]
    rw [parseStrCharsF_esc_t]
  by_cases h8 : c.toNat < 0x20
  · rw [escapeChar_control c h1 h2 h3 h4 h5 h6 h7 h8, hex4]
    simp only [List.cons_append, List.nil_append]
    rw [parseStrCharsF_u m _ _ _ _ _ c.toNat (hex4Val_hex4 c.toNat (by omega))
      (by omega) (by omega), Char.ofNat_toNat]
  by_cases h9 : c.toNat ≤ 0x7e
  · rw [escapeChar_plain c h1 h2 h3 h4 h5 h6 h7 h8 h9]
    simp only [List.cons_append, List.nil_append]
    rw [parseStrCharsF_plain m c _ h1 h2 h8]
  by_cases h10 : c.toNat ≤ 0xffff
  · rw [escapeChar_bmp c h1 h2 h3 h4 h5 h6 h7 h8 h9 h10, hex4]
    simp only [List.cons_append, List.nil_append]
    rw [parseStrCharsF_u m _ _ _ _ _ c.toNat (hex4Val_hex4 c.toNat (by omega))
      (by omega) (by omega), Char.ofNat_toNat]
  · rw [escapeChar_astral c h1 h2 h3 h4 h5 h6 h7 h8 h9 h10, hex4, hex4]
    simp only [List.cons_append, List.nil_append, List.append_assoc]
    rw [parseStrCharsF_u_pair m _ _ _ _ _ _ _ _ _
      (0xd800 + (c.toNat - 0x10000) / 0x400) (0xdc00 + (c.toNat - 0x10000) % 0x400)
      (hex4Val_hex4 _ (by omega)) (hex4Val_hex4 _ (by omega)) (by omega) (by omega)]
    rw [show 0x10000 + (0xd800 + (c.toNat - 0x10000) / 0x400 - 0xd800) * 0x400 +
          (0xdc00 + (c.toNat - 0x10000) % 0x400 - 0xdc00) = c.toNat from by omega,
      Char.ofNat_toNat]

/-- Round-trip law of the string codec: parsing the escaped body of `s`
followed by a closing quote yields `s` and the trailing input. -/
theorem parseStrCharsF_escape (s : List Char) (rest : List Char) (fuel : Nat)
    (h : s.length < fuel) :
    parseStrCharsF fuel (escapeList s ++ '"' :: rest) = some (s, rest) := by
  induction s generalizing fuel rest with
  | nil =>
    obtain ⟨m, rfl⟩ : ∃ m, fuel = m + 1 := ⟨fuel - 1, by omega⟩
    rw [escapeList_nil, List.nil_append, parseStrCharsF_quote]
  | cons c cs ih =>
    obtain ⟨m, rfl⟩ : ∃ m, fuel = m + 1 := ⟨fuel - 1, by omega⟩
    have hm : cs.length < m := by
      simp only [List.length_cons] at h
      omega
    rw [escapeList_cons, List.append_assoc, parseStrCharsF_escapeChar, ih rest m hm,
      Option.map_some']

theorem skipWs_nil : skipWs [] = [] := rfl

theorem skipWs_quote (l : List Char) : skipWs ('"' :: l) = '"' :: l := rfl

theorem skipWs_colon (l : List Char) : skipWs (':' :: l) = ':' :: l := rfl

theorem skipWs_comma (l : List Char) : skipWs (',' :: l) = ',' :: l := rfl

theorem skipWs_space (l : List Char) : skipWs (' ' :: l) = skipWs l := rfl

theorem skipWs_nl (l : List Char) : skipWs ('\n' :: l) = skipWs l := rfl

theorem skipWs_lb (l : List Char) : skipWs (Char.ofNat 0x7b :: l) = Char.ofNat 0x7b :: l := rfl

theorem skipWs_rb (l : List Char) : skipWs (Char.ofNat 0x7d :: l) = Char.ofNat 0x7d :: l := rfl

theorem escapeChar_length_pos (c : Char) : 1 ≤ (escapeChar c).length := by
  by_cases h1 : c = '"'
  · subst h1
    decide
  by_cases h2 : c = '\\'
  · subst h2
    decide
  by_cases h3 : c = '\x08'
  · subst h3
    decide
  by_cases h4 : c = '\x0c'
  · subst h4
    decide
  by_cases h5 : c = '\n'
  · subst h5
    decide
  by_cases h6 : c = '\x0d'
  · subst h6
    decide
  by_cases h7 : c = '\t'
  · subst h7
    decide
  by_cases h8 : c.toNat < 0x20
  · rw [escapeChar_control c h1 h2 h3 h4 h5 h6 h7 h8]
    simp [hex4]
  by_cases h9 : c.toNat ≤ 0x7e
  · rw [escapeChar_plain c h1 h2 h3 h4 h5 h6 h7 h8 h9]
    simp
  by_cases h10 : c.toNat ≤ 0xffff
  · rw [escapeChar_bmp c h1 h2 h3 h4 h5 h6 h7 h8 h9 h10]
    simp [hex4]
  · rw [escapeChar_astral c h1 h2 h3 h4 h5 h6 h7 h8 h9 h10]
    simp [hex4]

theorem length_le_escapeList (s : List Char) : s.length ≤ (escapeList s).length := by
  induction s with
  | nil => simp [escapeList_nil]
  | cons c cs ih =>
    rw [escapeList_cons]
    have := escapeChar_length_pos c
    simp only [List.length_cons, List.length_append]
    omega

theorem parseStrChars_escape (s : List Char) (rest : List Char) :
    parseStrChars (escapeList s ++ '"' :: rest) = some (s, rest) := by
  unfold parseStrChars
  apply parseStrCharsF_escape
  have := length_le_escapeList s
  simp only [List.length_append, List.length_cons]
  omega

theorem parseStringLit_escape (s : String) (rest : List Char) :
    parseStringLit ('"' :: (escapeList s.data ++ '"' :: rest)) = some (s, rest) := by
  simp [parseStringLit, parseStrChars_escape]

theorem parseMembers_congr (fuel : Nat) (l l' : List Char) (h : skipWs l = skipWs l') :
    parseMembers fuel l = parseMembers fuel l' := by
  cases fuel with
  | zero => rfl
  | succ n => simp only [parseMembers, h]

/-- One member step of the object parser when a comma follows. -/
theorem parseMembers_step_comma (fuel : Nat) (k v : String) (rest rest' : List Char)
    (h : skipWs rest = ',' :: rest') :
    parseMembers (fuel + 1) (memberChars k v rest) =
      (parseMembers fuel rest').map (fun p => ((k, v) :: p.1, p.2)) := by
  simp only [parseMembers, memberChars, skipWs_quote, parseStringLit_escape,
    skipWs_colon, skipWs_space, h]

/-- One member step of the object parser when the closing brace follows. -/
theorem parseMembers_step_end (fuel : Nat) (k v : String) (rest rest' : List Char)
    (h : skipWs rest = Char.ofNat 0x7d :: rest') :
    parseMembers (fuel + 1) (memberChars k v rest) = some ([(k, v)], rest') := by
  simp only [parseMembers, memberChars, skipWs_quote, parseStringLit_escape,
    skipWs_colon, skipWs_space, h]
  rw [show (Char.ofNat 0x7d) = '\x7d' from rfl]
  simp

/-- Parsing the members region of a dumped record yields its three fields in
order with nothing left over. -/
theorem parseMembers_record (r : ReportRecord) (fuel : Nat) :
    parseMembers (fuel + 3) (recordMembersChars r) =
      some ([("date", r.date), ("timestamp", r.timestamp), ("report", r.report)], []) := by
  unfold recordMembersChars
  rw [show fuel + 3 = (fuel + 2) + 1 from rfl]
  rw [parseMembers_step_comma (fuel + 2) "date" r.date
    (',' :: '\n' :: ' ' :: ' ' :: memberChars "timestamp" r.timestamp (',' :: '\n' :: ' ' :: ' ' :: memberChars "report" r.report ('\n' :: [Char.ofNat 0x7d]))) ('\n' :: ' ' :: ' ' :: memberChars "timestamp" r.timestamp (',' :: '\n' :: ' ' :: ' ' :: memberChars "report" r.report ('\n' :: [Char.ofNat 0x7d]))) (skipWs_comma _)]
  rw [parseMembers_congr (fuel + 2) ('\n' :: ' ' :: ' ' :: memberChars "timestamp" r.timestamp (',' :: '\n' :: ' ' :: ' ' :: memberChars "report" r.report ('\n' :: [Char.ofNat 0x7d]))) (memberChars "timestamp" r.timestamp (',' :: '\n' :: ' ' :: ' ' :: memberChars "report" r.report ('\n' :: [Char.ofNat 0x7d]))) rfl]
  rw [show fuel + 2 = (fuel + 1) + 1 from rfl]
  rw [parseMembers_step_comma (fuel + 1) "timestamp" r.timestamp
    (',' :: '\n' :: ' ' :: ' ' :: memberChars "report" r.report ('\n' :: [Char.ofNat 0x7d])) ('\n' :: ' ' :: ' ' :: memberChars "report" r.report ('\n' :: [Char.ofNat 0x7d])) (skipWs_comma _)]
  rw [parseMembers_congr (fuel + 1) ('\n' :: ' ' :: ' ' :: memberChars "report" r.report ('\n' :: [Char.ofNat 0x7d])) (memberChars "report" r.report ('\n' :: [Char.ofNat 0x7d])) rfl]
  rw [parseMembers_step_end fuel "report" r.report ('\n' :: [Char.ofNat 0x7d]) [] rfl]
  rfl

theorem skipWs_record (r : ReportRecord) :
    skipWs (recordMembersChars r) = recordMembersChars r := by
  unfold recordMembersChars memberChars
  exact skipWs_quote _

/-- Record-level round trip: the document `json.dump` writes parses back to
exactly the three fields of the record, in order. -/
theorem parseJsonObject_dump (r : ReportRecord) :
    parseJsonObject (jsonDumpRecord r) =
      some [("date", r.date), ("timestamp", r.timestamp), ("report", r.report)] := by
  have hdata : (jsonDumpRecord r).data =
      Char.ofNat 0x7b :: '\n' :: ' ' :: ' ' :: recordMembersChars r := rfl
  have hk : (Char.ofNat 0x7b :: '\n' :: ' ' :: ' ' :: recordMembersChars r).length + 1 =
      ((recordMembersChars r).length + 2) + 3 := by
    simp only [List.length_cons]
  unfold parseJsonObject
  rw [hdata, skipWs_lb, List.head?_cons, if_pos rfl, List.tail_cons]
  rw [show skipWs ('\n' :: ' ' :: ' ' :: recordMembersChars r) = recordMembersChars r from by
    rw [skipWs_nl, skipWs_space, skipWs_space, skipWs_record]]
  rw [show (recordMembersChars r).head? = some '"' from by
    unfold recordMembersChars memberChars
    rfl]
  rw [if_neg (by decide)]
  rw [hk, parseMembers_record]
  rfl

/-- Sanity bridge: the character-level record document equals the readable
concatenation of the indent-2 skeleton with the three quoted string
literals, confirming the transcription of the `json.dump` format. -/
theorem jsonDumpRecord_eq (r : ReportRecord) :
    jsonDumpRecord r =
      "\x7b\n  \"date\": " ++ jsonStringLit r.date ++
        ",\n  \"timestamp\": " ++ jsonStringLit r.timestamp ++
        ",\n  \"report\": " ++ jsonStringLit r.report ++ "\n\x7d" := by
  have hdq : ("\x7b\n  \"date\": " : String).data =
      Char.ofNat 0x7b :: '\n' :: ' ' :: ' ' ::
        '"' :: 'd' :: 'a' :: 't' :: 'e' :: '"' :: ':' :: ' ' :: [] := rfl
  have hts : (",\n  \"timestamp\": " : String).data =
      ',' :: '\n' :: ' ' :: ' ' ::
        '"' :: 't' :: 'i' :: 'm' :: 'e' :: 's' :: 't' :: 'a' :: 'm' :: 'p' :: '"' ::
          ':' :: ' ' :: [] := rfl
  have hrp : (",\n  \"report\": " : String).data =
      ',' :: '\n' :: ' ' :: ' ' ::
        '"' :: 'r' :: 'e' :: 'p' :: 'o' :: 'r' :: 't' :: '"' :: ':' :: ' ' :: [] := rfl
  have hend : ("\n\x7d" : String).data = '\n' :: Char.ofNat 0x7d :: [] := rfl
  have hkd : escapeList ("date".data) = 'd' :: 'a' :: 't' :: 'e' :: [] := rfl
  have hkt : escapeList ("timestamp".data) =
      't' :: 'i' :: 'm' :: 'e' :: 's' :: 't' :: 'a' :: 'm' :: 'p' :: [] := rfl
  have hkr : escapeList ("report".data) = 'r' :: 'e' :: 'p' :: 'o' :: 'r' :: 't' :: [] := rfl
  have h : (jsonDumpRecord r).data =
      ("\x7b\n  \"date\": " ++ jsonStringLit r.date ++
        ",\n  \"timestamp\": " ++ jsonStringLit r.timestamp ++
        ",\n  \"report\": " ++ jsonStringLit r.report ++ "\n\x7d").data := by
    simp only [String.data_append, hdq, hts, hrp, hend, jsonStringLit]
    show (Char.ofNat 0x7b :: '\n' :: ' ' :: ' ' :: recordMembersChars r) = _
    simp only [recordMembersChars, memberChars, hkd, hkt, hkr]
    simp
  exact congrArg String.mk h

/-! ## Report store

`REPORTS_DIR = SCRIPT_DIR.parent / "reports"`, the latest-record slot is
`reports/latest_report.json`, archive copies are
`reports/report_YYYY-MM-DD.json`. Paths are modelled relative to the
script's parent directory. -/

/-- `LATEST_REPORT_PATH = REPORTS_DIR / "latest_report.json"`. -/
def latestReportPath : String := "reports/latest_report.json"

/-- The dated archive path `REPORTS_DIR / f"report_{now:%Y-%m-%d}.json"`. -/
def archivePath (t : PyDateTime) : String :=
  "reports/report_" ++ strftimeYMD t ++ ".json"

/-- The record `save_report` builds from the clock and the report text. -/
def mkRecord (now : PyDateTime) (report : String) : ReportRecord :=
  { date := strftimeDMY now, timestamp := isoformat now, report := report }

/-- `save_report`: write the record to the latest slot, then write the same
serialized record to the dated archive path (`REPORTS_DIR.mkdir` is a no-op
in the filesystem model). The source reads `datetime.now()` three times
within this function; the model takes the run's single instant `now` for
all three, i.e. the clock does not tick inside one save. -/
def save_report (fs : FS) (now : PyDateTime) (report : String) : FS :=
  setFile (setFile fs latestReportPath (jsonDumpRecord (mkRecord now report)))
    (archivePath now) (jsonDumpRecord (mkRecord now report))

/-- `load_previous_report`: `None` when the latest slot is absent, otherwise
`json.load` the file and return `(data.get("report", ""), data.get("date",
"Unknown"))`; a malformed file makes `json.load` raise. -/
def load_previous_report (fs : FS) : Except PyError (Option (String × String)) :=
  match getFile fs latestReportPath with
  | none => .ok none
  | some content =>
    match parseJsonObject content with
    | none => .error .jsonDecodeError
    | some obj =>
      .ok (some ((lookupLast obj "report").getD "", (lookupLast obj "date").getD "Unknown"))

theorem strftimeYMD_data (t : PyDateTime) :
    (strftimeYMD t).data = pad4 t.year ++ '-' :: pad2 t.month ++ '-' :: pad2 t.day := rfl

theorem strftimeYMD_length (t : PyDateTime) : (strftimeYMD t).data.length = 10 := by
  rw [strftimeYMD_data]
  simp [pad4, pad2]

theorem archivePath_data (t : PyDateTime) :
    (archivePath t).data = "reports/report_".data ++ (strftimeYMD t).data ++ ".json".data := by
  simp [archivePath]

theorem archivePath_length (t : PyDateTime) : (archivePath t).data.length = 30 := by
  rw [archivePath_data]
  simp only [List.length_append, strftimeYMD_length]
  decide

theorem archivePath_ne_latest (t : PyDateTime) : archivePath t ≠ latestReportPath := by
  intro h
  have hl : (archivePath t).data.length = latestReportPath.data.length := by rw [h]
  rw [archivePath_length] at hl
  exact absurd hl (by decide)

theorem lookupLast_record_report (d ts rp : String) :
    lookupLast [("date", d), ("timestamp", ts), ("report", rp)] "report" = some rp := by
  simp [lookupLast]

theorem lookupLast_record_date (d ts rp : String) :
    lookupLast [("date", d), ("timestamp", ts), ("report", rp)] "date" = some d := by
  simp [lookupLast]

/-- Store round trip: immediately after `save_report`, `load_previous_report`
returns the just-saved report text byte-for-byte, with the saved date. -/
theorem load_after_save (fs : FS) (now : PyDateTime) (r : String) :
    load_previous_report (save_report fs now r) = .ok (some (r, strftimeDMY now)) := by
  unfold load_previous_report save_report
  rw [getFile_setFile_other _ _ _ _ ((archivePath_ne_latest now).symm), getFile_setFile_same]
  simp only [parseJsonObject_dump, mkRecord, lookupLast_record_report, lookupLast_record_date,
    Option.getD_some]

theorem decDigit_mod (k : Nat) : decDigit (k % 10) = decDigit k := by
  unfold decDigit
  rw [Nat.mod_mod_of_dvd k (dvd_refl 10)]

theorem decDigit_inj_lt : ∀ a < 10, ∀ b < 10, decDigit a = decDigit b → a = b := by
  decide

theorem decDigit_inj (a b : Nat) (h : decDigit a = decDigit b) : a % 10 = b % 10 := by
  apply decDigit_inj_lt _ (Nat.mod_lt _ (by norm_num)) _ (Nat.mod_lt _ (by norm_num))
  rw [decDigit_mod, decDigit_mod]
  exact h

/-- The `%Y-%m-%d` key determines year, month and day (within `datetime`'s
ranges, where the rendering is faithful). -/
theorem strftimeYMD_inj (t1 t2 : PyDateTime)
    (h1y : t1.year ≤ 9999) (h2y : t2.year ≤ 9999)
    (h1m : t1.month ≤ 99) (h2m : t2.month ≤ 99)
    (h1d : t1.day ≤ 99) (h2d : t2.day ≤ 99)
    (h : (strftimeYMD t1).data = (strftimeYMD t2).data) :
    t1.year = t2.year ∧ t1.month = t2.month ∧ t1.day = t2.day := by
  rw [strftimeYMD_data, strftimeYMD_data] at h
  simp only [pad4, pad2, List.cons_append, List.nil_append, List.cons.injEq, and_true] at h
  obtain ⟨e1, e2, e3, e4, _, e5, e6, _, e7, e8⟩ := h
  have d1 := decDigit_inj _ _ e1
  have d2 := decDigit_inj _ _ e2
  have d3 := decDigit_inj _ _ e3
  have d4 := decDigit_inj _ _ e4
  have d5 := decDigit_inj _ _ e5
  have d6 := decDigit_inj _ _ e6
  have d7 := decDigit_inj _ _ e7
  have d8 := decDigit_inj _ _ e8
  refine ⟨by omega, by omega, by omega⟩

theorem archivePath_inj (t1 t2 : PyDateTime)
    (h1y : t1.year ≤ 9999) (h2y : t2.year ≤ 9999)
    (h1m : t1.month ≤ 99) (h2m : t2.month ≤ 99)
    (h1d : t1.day ≤ 99) (h2d : t2.day ≤ 99)
    (h : archivePath t1 = archivePath t2) :
    t1.year = t2.year ∧ t1.month = t2.month ∧ t1.day = t2.day := by
  have hd : (archivePath t1).data = (archivePath t2).data := by rw [h]
  rw [archivePath_data, archivePath_data] at hd
  have h2 := List.append_cancel_right hd
  have h3 := List.append_cancel_left h2
  exact strftimeYMD_inj t1 t2 h1y h2y h1m h2m h1d h2d h3

theorem strftimeYMD_congr (t1 t2 : PyDateTime)
    (hy : t1.year = t2.year) (hm : t1.month = t2.month) (hd : t1.day = t2.day) :
    strftimeYMD t1 = strftimeYMD t2 := by
  unfold strftimeYMD
  rw [hy, hm, hd]

theorem archivePath_congr (t1 t2 : PyDateTime)
    (hy : t1.year = t2.year) (hm : t1.month = t2.month) (hd : t1.day = t2.day) :
    archivePath t1 = archivePath t2 := by
  unfold archivePath
  rw [strftimeYMD_congr t1 t2 hy hm hd]

/-! ## Notifier: `md_to_html`

The nested helper of `create_email_html` applies, in order:
`re.sub(r'^## (.+)$', ..., flags=re.MULTILINE)`, then
`re.sub(r'^### (.+)$', ..., flags=re.MULTILINE)`,
`re.sub(r'\*\*(.+?)\*\*', ...)`, `re.sub(r'\|(.+)\|', ...)`, then
`replace('\n\n', ...)` and `replace('\n', '<br>')`. Each substitution is
embedded operationally: `.` never matches a newline, `^`/`$` with MULTILINE
anchor at line boundaries, `(.+?)` takes the shortest nonempty match,
`(.+)` the longest, and the scan resumes after each replacement, exactly as
`re.sub` does. -/

/-- Replacement head for `^## (.+)$`. -/
def h2Open : List Char :=
  "<h2 style=\"color: #2c3e50; border-bottom: 2px solid #3498db; padding-bottom: 5px;\">".data

/-- Closing tag for the level-2 header replacement. -/
def h2Close : List Char := "</h2>".data

/-- Replacement head for `^### (.+)$`. -/
def h3Open : List Char := "<h3 style=\"color: #34495e;\">".data

/-- Closing tag for the level-3 header replacement. -/
def h3Close : List Char := "</h3>".data

/-- Replacement for one line under `^## (.+)$` (MULTILINE): the line must
start with `## ` and have a nonempty remainder, which `.+` captures. -/
def h2Line : List Char → List Char
  | '#' :: '#' :: ' ' :: rest =>
    if rest = [] then ['#', '#', ' ']
    else h2Open ++ rest ++ h2Close
  | line => line

/-- `re.sub(r'^## (.+)$', ..., flags=re.MULTILINE)`: line-by-line. -/
def h2Sub (l : List Char) : List Char :=
  List.intercalate ['\n'] ((l.splitOn '\n').map h2Line)

/-- Replacement for one line under `^### (.+)$` (MULTILINE): the line must
start with `### ` and have a nonempty remainder, which `.+` captures. -/
def h3Line : List Char → List Char
  | '#' :: '#' :: '#' :: ' ' :: rest =>
    if rest = [] then ['#', '#', '#', ' ']
    else h3Open ++ rest ++ h3Close
  | line => line

/-- `re.sub(r'^### (.+)$', ..., flags=re.MULTILINE)`: line-by-line. -/
def h3Sub (l : List Char) : List Char :=
  List.intercalate ['\n'] ((l.splitOn '\n').map h3Line)

/-- Shortest-match search for the closing `**` of `\*\*(.+?)\*\*`: consume at
least one non-newline character, stopping at the first position followed by
`**`; returns the captured group and the input after the closing stars. -/
def boldFindClose : List Char → Option (List Char × List Char)
  | [] => none
  | c :: rest =>
    if c = '\n' then none
    else if rest.head? = some '*' ∧ rest.tail.head? = some '*' then
      some ([c], rest.tail.tail)
    else (boldFindClose rest).map (fun p => (c :: p.1, p.2))

/-- `re.sub(r'\*\*(.+?)\*\*', r'<strong>\1</strong>', text)`: scan left to
right; at `**` try the lazy closing search; on failure advance one character
(one star), as the regex engine does. Fuelled so that the kernel can
evaluate it; the wrapper supplies fuel that cannot run out. -/
def boldScanF : Nat → List Char → List Char
  | 0, l => l
  | _ + 1, [] => []
  | fuel + 1, '*' :: '*' :: rest =>
    match boldFindClose rest with
    | some (content, rest2) =>
      "<strong>".data ++ content ++ "</strong>".data ++ boldScanF fuel rest2
    | none => '*' :: boldScanF fuel ('*' :: rest)
  | fuel + 1, c :: rest => c :: boldScanF fuel rest

/-- Bold substitution entry point: every step strictly shrinks the input, so
`length + 1` units of fuel never run out. -/
def boldScan (l : List Char) : List Char := boldScanF (l.length + 1) l

/-- Greedy search for `\|(.+)\|` starting at a `|`: the capture runs to the
last `|` on the same line with a nonempty group; returns the group and the
input after the closing bar, or `none` when no closing bar exists. The
helper splits a line segment at its last bar. -/
def splitAtLastBar : List Char → Option (List Char × List Char)
  | [] => none
  | c :: rest =>
    match splitAtLastBar rest with
    | some (pre, post) => some (c :: pre, post)
    | none => if c = '|' then some ([], rest) else none

/-- Greedy closing-bar search on the current line (`.` excludes newlines):
group is everything before the line's last `|`, which must be nonempty. -/
def tableFindClose (l : List Char) : Option (List Char × List Char) :=
  let seg := l.takeWhile (fun c => !(c = '\n'))
  match splitAtLastBar seg with
  | some (content, post) =>
    if content = [] then none
    else some (content, post ++ l.drop seg.length)
  | none => none

/-- `re.sub(r'\|(.+)\|', r'<tr><td ...>\1</td></tr>', text)`: scan left to
right; at `|` try the greedy close on the rest of the line; on failure
advance one character. -/
def tableScanF : Nat → List Char → List Char
  | 0, l => l
  | _ + 1, [] => []
  | fuel + 1, c :: rest =>
    if c = '|' then
      match tableFindClose rest with
      | some (content, rest2) =>
        "<tr><td style=\"border: 1px solid #ddd; padding: 8px;\">".data ++ content ++
          "</td></tr>".data ++ tableScanF fuel rest2
      | none => '|' :: tableScanF fuel rest
    else c :: tableScanF fuel rest

/-- Table substitution entry point. -/
def tableScan (l : List Char) : List Char := tableScanF (l.length + 1) l

/-- `text.replace('\n\n', '</p><p style="margin: 10px 0;">')`: left-to-right
non-overlapping replacement, as `str.replace`. -/
def pSub : List Char → List Char
  | '\n' :: '\n' :: rest => "</p><p style=\"margin: 10px 0;\">".data ++ pSub rest
  | c :: rest => c :: pSub rest
  | [] => []

/-- `text.replace('\n', '<br>')`. -/
def brSub : List Char → List Char
  | '\n' :: rest => "<br>".data ++ brSub rest
  | c :: rest => c :: brSub rest
  | [] => []

/-- The `md_to_html` helper nested in `create_email_html`: the six
substitutions applied in source order. -/
def md_to_html (s : String) : String :=
  ⟨brSub (pSub (tableScan (boldScan (h3Sub (h2Sub s.data)))))⟩

/-! ## Notifier: `create_email_html`

The subject lines, introduction paragraphs, comparison-section wrapper and
HTML document skeleton are transcribed byte-for-byte from the source (the
source file stores its emoji as mojibake code points, reproduced via
escapes). The `timedelta` expression in the document footer is where name
resolution fails, see `resolvesInCreateEmailHtml` below. -/

/-- Subject line of the `is_first_run` branch. -/
def firstRunSubject : String := "\uf8ff\u00fc\u00dc\u00ef First HL Due Diligence Report"

/-- Subject line of the comparison branch. -/
def monthlySubject : String := "\uf8ff\u00fc\u00ec\u00e4 Monthly HL Due Diligence Update"

/-- Introduction paragraph of the `is_first_run` branch. -/
def introFirst : String := "<p style=\"background: #e8f4f8; padding: 15px; border-radius: 5px;\">\n            This is your <strong>first automated due diligence report</strong> on Hargreaves Lansdown. \n            Future monthly reports will include a comparison highlighting changes since this baseline.\n        </p>"

/-- Introduction paragraph of the comparison branch. -/
def introMonthly : String := "<p style=\"background: #e8f4f8; padding: 15px; border-radius: 5px;\">\n            Your monthly due diligence report on Hargreaves Lansdown is ready. \n            See the <strong>Changes Summary</strong> below for what\x27s new since last month.\n        </p>"

/-- The comparison section `<div>` wrapping `md_to_html(comparison)`. -/
def comparisonSectionHtml (inner : String) : String :=
  "\n        <div style=\"background: #fff; border: 1px solid #ddd; border-radius: 5px; padding: 20px; margin: 20px 0;\">\n            <h2 style=\"color: #2c3e50; margin-top: 0;\">\uf8ff\u00fc\u00ec\u00e3 Changes Since Last Report</h2>\n            " ++ inner ++ "\n        </div>\n        "

/-- The HTML document f-string: literal segments around the five
interpolations `date_str`, `intro`, `comparison_section`,
`md_to_html(full_report)` and the next-report date expression. -/
def htmlDoc (dateStr intro comparisonSection reportHtml nextStr : String) : String :=
  "\n    <!DOCTYPE html>\n    <html>\n    <head>\n        <meta charset=\"UTF-8\">\n        <style>\n            body \x7b font-family: -apple-system, BlinkMacSystemFont, \x27Segoe UI\x27, Roboto, sans-serif; line-height: 1.6; color: #333; max-width: 800px; margin: 0 auto; padding: 20px; \x7d\n            h1 \x7b color: #1a5276; \x7d\n            h2 \x7b color: #2c3e50; border-bottom: 2px solid #3498db; padding-bottom: 5px; \x7d\n            table \x7b border-collapse: collapse; width: 100%; margin: 15px 0; \x7d\n            th, td \x7b border: 1px solid #ddd; padding: 8px; text-align: left; \x7d\n            th \x7b background: #3498db; color: white; \x7d\n            .footer \x7b margin-top: 30px; padding-top: 20px; border-top: 1px solid #ddd; font-size: 12px; color: #666; \x7d\n        </style>\n    </head>\n    <body>\n        <h1>\uf8ff\u00fc\u00e8\u00b6 Hargreaves Lansdown Due Diligence Report</h1>\n        <p style=\"color: #666;\">Generated: " ++ dateStr ++
  "</p>\n        \n        " ++ intro ++
  "\n        \n        " ++ comparisonSection ++
  "\n        \n        <details style=\"margin: 20px 0;\">\n            <summary style=\"cursor: pointer; font-weight: bold; font-size: 18px; color: #2c3e50; padding: 10px; background: #f8f9fa; border-radius: 5px;\">\n                \uf8ff\u00fc\u00ec\u00d1 Full Research Report (click to expand)\n            </summary>\n            <div style=\"background: #fff; border: 1px solid #ddd; border-radius: 0 0 5px 5px; padding: 20px; margin-top: -5px;\">\n                " ++ reportHtml ++
  "\n            </div>\n        </details>\n        \n        <div class=\"footer\">\n            <p>This report was automatically generated using Claude AI with web search.</p>\n            <p>Repository: <a href=\"https://github.com/YOUR_USERNAME/hl-monitoring\">hl-monitoring</a></p>\n            <p>Next report scheduled: " ++ nextStr ++
  "</p>\n        </div>\n    </body>\n    </html>\n    "

/-- The values `create_email_html` computes on its way to the `return`:
subject line, introduction, comparison section, and the assembled HTML body
(as the f-string would evaluate with `timedelta` in scope). -/
structure EmailPieces where
  subject : String
  intro : String
  comparisonSection : String
  html : String
deriving DecidableEq, Repr

/-- `subject_line` as the branches of `create_email_html` assign it. -/
def subjectLine (is_first_run : Bool) : String :=
  if is_first_run then firstRunSubject else monthlySubject

/-- `intro` as the branches assign it. -/
def introOf (is_first_run : Bool) : String :=
  if is_first_run then introFirst else introMonthly

/-- `comparison_section` as the branches assign it: empty on a first run,
the wrapped `md_to_html(comparison)` otherwise. In `main`, `comparison` is
a string exactly when `is_first_run` is false; the `none` case of the
comparison branch defaults to the empty string here and is unreachable
from `main` (and unreachable in `create_email_html` below, which raises
`TypeError` first). -/
def comparisonSectionOf (comparison : Option String) (is_first_run : Bool) : String :=
  if is_first_run then "" else comparisonSectionHtml (md_to_html (comparison.getD ""))

/-- The rendering computation of `create_email_html` as written: the
branch-dependent subject, intro and comparison section, and the document
assembled from them with the generated date and the next-report date. -/
def renderPieces (now : PyDateTime) (comparison : Option String) (full_report : String)
    (is_first_run : Bool) : EmailPieces :=
  { subject := subjectLine is_first_run,
    intro := introOf is_first_run,
    comparisonSection := comparisonSectionOf comparison is_first_run,
    html := htmlDoc (strftimeDMY now) (introOf is_first_run)
      (comparisonSectionOf comparison is_first_run) (md_to_html full_report)
      (strftimeDMY (firstOfNextMonth now)) }

theorem renderPieces_subject (now : PyDateTime) (c : Option String) (r : String) (f : Bool) :
    (renderPieces now c r f).subject = subjectLine f := rfl

theorem renderPieces_intro (now : PyDateTime) (c : Option String) (r : String) (f : Bool) :
    (renderPieces now c r f).intro = introOf f := rfl

theorem renderPieces_comparisonSection (now : PyDateTime) (c : Option String) (r : String)
    (f : Bool) :
    (renderPieces now c r f).comparisonSection = comparisonSectionOf c f := rfl

theorem renderPieces_html (now : PyDateTime) (c : Option String) (r : String) (f : Bool) :
    (renderPieces now c r f).html =
      htmlDoc (strftimeDMY now) (introOf f) (comparisonSectionOf c f) (md_to_html r)
        (strftimeDMY (firstOfNextMonth now)) := rfl

/-! ## Python name resolution for `create_email_html`

The f-string at the end of `create_email_html` evaluates
`(datetime.now().replace(day=1) + timedelta(days=32))...`; `timedelta` is
resolved through Python's scoping: the function's local scope, then the
module's global scope, then builtins. The module imports `datetime` but not
`timedelta`; the only `timedelta` binding is `from datetime import
timedelta` inside `main`, which creates a local variable of `main` that is
invisible to `create_email_html`. -/

/-- Names bound at module level by `hl_monitor.py`'s import statements,
constant assignments and `def` statements. -/
def moduleNames : List String :=
  [ "os", "json", "smtplib", "anthropic", "MIMEText", "MIMEMultipart", "datetime", "Path",
    "ANTHROPIC_API_KEY", "GMAIL_ADDRESS", "GMAIL_APP_PASSWORD", "RECIPIENT_EMAIL",
    "SCRIPT_DIR", "REPORTS_DIR", "LATEST_REPORT_PATH",
    "get_research_prompt", "get_comparison_prompt", "conduct_research", "compare_reports",
    "load_previous_report", "save_report", "create_email_html", "send_email", "main" ]

/-- Names local to `create_email_html`: its parameters and the names its
body assigns. -/
def createEmailHtmlLocalNames : List String :=
  [ "comparison", "full_report", "is_first_run", "md_to_html", "date_str",
    "subject_line", "intro", "comparison_section", "html" ]

/-- Names local to `main`: the local import of `timedelta` plus the names
`main`'s body assigns. -/
def mainLocalNames : List String :=
  [ "timedelta", "new_report", "previous", "previous_report", "previous_date",
    "comparison", "is_first_run", "html_content", "subject" ]

/-- The builtins the module uses (none of which is `timedelta`). -/
def pythonBuiltinNames : List String := ["print", "len", "open", "hasattr"]

/-- Whether a name resolves inside `create_email_html`: locals, then module
globals, then builtins. -/
def resolvesInCreateEmailHtml (n : String) : Bool :=
  createEmailHtmlLocalNames.contains n || moduleNames.contains n ||
    pythonBuiltinNames.contains n

/-- `create_email_html` with Python's evaluation order made explicit: in the
comparison branch, `md_to_html(comparison)` is evaluated first, so an absent
comparison raises `TypeError` inside `re.sub`; otherwise the f-string body
evaluates `timedelta`, whose resolution fails, raising
`NameError: name 'timedelta' is not defined` before anything is returned.
Were the name resolvable the function would return `(html, subject_line)`. -/
def create_email_html (now : PyDateTime) (comparison : Option String)
    (full_report : String) (is_first_run : Bool) : Except PyError (String × String) :=
  if is_first_run = false ∧ comparison = none then .error .typeError
  else if resolvesInCreateEmailHtml "timedelta" then
    .ok ((renderPieces now comparison full_report is_first_run).html,
      (renderPieces now comparison full_report is_first_run).subject)
  else .error (.nameError "timedelta")

/-! ## Research client and comparator

The two service calls are modelled against an oracle giving each
`client.messages.create` call's response. A response carries a stop reason
and content blocks, some of which bear text (`hasattr(block, "text")`). -/

/-- One content block of a response. -/
inductive ContentBlock where
  /-- A block with a `text` attribute. -/
  | text (s : String)
  /-- Any block without a `text` attribute (tool use, search results, ...). -/
  | other
deriving DecidableEq, Repr

/-- The text-extraction loop shared by `conduct_research` and
`compare_reports`: concatenate the text of every text-bearing block. -/
def extractText (blocks : List ContentBlock) : String :=
  blocks.foldl (fun acc b => match b with | .text s => acc ++ s | .other => acc) ""

/-- A response from the LLM service. -/
structure ApiResponse where
  stop_reason : String
  content : List ContentBlock
deriving DecidableEq, Repr

/-- The content of one chat turn: user turns carry a string, the appended
assistant turn carries the prior response's block list. -/
inductive MessageContent where
  | text (s : String)
  | blocks (bs : List ContentBlock)
deriving DecidableEq, Repr

/-- One role-tagged message turn. -/
structure Message where
  role : String
  content : MessageContent
deriving DecidableEq, Repr

/-- The observable shape of one `client.messages.create` call: the
`max_uses` of its web-search tool declaration and its message list. -/
structure ApiCall where
  maxUses : Nat
  messages : List Message
deriving DecidableEq, Repr

/-- `get_research_prompt()`: fixed topic prompt ending in the current date. -/
def get_research_prompt (now : PyDateTime) : String :=
  "Conduct comprehensive due diligence research on Hargreaves Lansdown (HL) with focus on recent developments. Search for and analyze:\n\n1. **CEO Search & Leadership**\n   - Current status of CEO search (Dan Olley and Amy Stirling departed after acquisition)\n   - Any announcements about permanent CEO appointment\n   - Changes to executive team or board\n\n2. **New Ownership Impact**\n   - How are CVC Capital Partners, Nordic Capital, and ADIA changing the company?\n   - Technology investment announcements\n   - Strategic direction changes since March 2025 privatisation\n   - Any fee structure changes or new product announcements\n\n3. **Woodford Litigation**\n   - Current status of the \u00ac\u00a3200m+ group legal action by RGL Management\n   - Any court dates, rulings, or settlement discussions\n   - Financial provisions or statements about the case\n   - Impact on company finances or reputation\n\n4. **Operational Performance**\n   - Recent AUA (Assets Under Administration) figures\n   - Client numbers and net flows\n   - Platform reliability incidents\n   - Customer service quality indicators\n\n5. **Regulatory Standing**\n   - Any new FCA actions, investigations, or concerns\n   - Consumer Duty compliance updates\n   - FSCS protection status confirmation\n\n6. **Financial Health**\n   - Latest available financial metrics\n   - Cash position and debt levels\n   - Any credit rating changes\n\nProvide a structured report with clear sections. Include specific dates and sources for all claims. Flag any items that represent significant changes or concerns for a Junior ISA customer with \u00ac\u00a330,000+ invested.\n\nToday\x27s date: " ++ strftimeDMY now

/-- `get_comparison_prompt(previous_report, new_report, previous_date)`. -/
def get_comparison_prompt (previous_report new_report previous_date : String)
    (now : PyDateTime) : String :=
  "Compare these two due diligence reports on Hargreaves Lansdown and identify significant changes.\n\nPREVIOUS REPORT (" ++ previous_date ++
  "):\n" ++ previous_report ++
  "\n\n---\n\nNEW REPORT (" ++ strftimeDMY now ++
  "):\n" ++ new_report ++
  "\n\n---\n\nProvide a structured comparison with these sections:\n\n## \uf8ff\u00fc\u00ee\u00a5 CRITICAL CHANGES (Immediate attention required)\nItems that significantly affect risk for a \u00ac\u00a330k+ Junior ISA holder\n\n## \uf8ff\u00fc\u00fc\u00b0 NOTABLE DEVELOPMENTS (Worth monitoring)\nMaterial changes that don\x27t require immediate action\n\n## \uf8ff\u00fc\u00fc\u00a2 POSITIVE UPDATES\nImprovements or reassuring developments\n\n## \u201a\u00d1\u03c0\u00d4\u220f\u00e8 STATUS UNCHANGED\nKey items that remain the same (brief summary)\n\n## \uf8ff\u00fc\u00ec\u00e4 METRICS COMPARISON TABLE\n| Metric | Previous | Current | Change |\n|--------|----------|---------|--------|\n(Include AUA, client numbers, cash position, litigation status where available)\n\n## \uf8ff\u00fc\u00ed\u00b0 RECOMMENDATION\nBrief assessment: Should the JISA holder take any action based on these changes?\n\nBe specific about what changed and when. If no significant changes occurred, clearly state that the situation remains stable."

/-- The initial user turn carrying the research prompt. -/
def researchUserMsg (now : PyDateTime) : Message :=
  { role := "user", content := .text (get_research_prompt now) }

/-- The fixed continuation instruction appended on each `pause_turn`. -/
def continueMsg : Message :=
  { role := "user", content := .text "Please continue your research." }

/-- The `while response.stop_reason == "pause_turn"` loop of
`conduct_research`: append the prior assistant turn and the continue
instruction, re-issue the call with a search allowance of 10, and repeat.
The source loop has no iteration bound; `fuel` only truncates the model
(exhaustion returns `none`, meaning the loop is still running). -/
def researchLoopF (oracle : Nat → ApiResponse) :
    Nat → List Message → Nat → ApiResponse → List ApiCall →
      Option (String × List ApiCall)
  | fuel, msgs, idx, resp, log =>
    if resp.stop_reason = "pause_turn" then
      match fuel with
      | 0 => none
      | fuel + 1 =>
        researchLoopF oracle fuel
          (msgs ++ [⟨"assistant", .blocks resp.content⟩, continueMsg])
          (idx + 1) (oracle idx)
          (log ++ [⟨10, msgs ++ [⟨"assistant", .blocks resp.content⟩, continueMsg]⟩])
    else some (extractText resp.content, log)

/-- `conduct_research`: issue the initial call (search allowance 15), then
run the continuation loop. Returns the extracted text of the final response
together with the log of calls made; `none` when `fuel` iterations did not
reach a non-`pause_turn` response. -/
def conduct_research (oracle : Nat → ApiResponse) (now : PyDateTime) (fuel : Nat) :
    Option (String × List ApiCall) :=
  researchLoopF oracle fuel [researchUserMsg now] 1 (oracle 0)
    [{ maxUses := 15, messages := [researchUserMsg now] }]

/-- The conversation after `i` continuation rounds: the research prompt
followed by each round's assistant turn and continue instruction. -/
def researchMessages (oracle : Nat → ApiResponse) (now : PyDateTime) : Nat → List Message
  | 0 => [researchUserMsg now]
  | i + 1 =>
    researchMessages oracle now i ++
      [{ role := "assistant", content := .blocks (oracle i).content }, continueMsg]

/-- The calls `conduct_research` makes when the service pauses `N` times:
the initial call with allowance 15, then one continuation call with
allowance 10 per pause, each carrying the extended conversation. -/
def researchCallLog (oracle : Nat → ApiResponse) (now : PyDateTime) (numPauses : Nat) :
    List ApiCall :=
  { maxUses := 15, messages := researchMessages oracle now 0 } ::
    (List.range numPauses).map
      (fun i => { maxUses := 10, messages := researchMessages oracle now (i + 1) })

/-- `compare_reports`: one non-paginated call carrying the comparison
prompt; returns the concatenated text blocks of the response. The single
`messages.create` outcome is the `svc` argument. -/
def compare_reports (svc : List Message → ApiResponse)
    (previous_report new_report previous_date : String) (now : PyDateTime) : String :=
  extractText
    (svc [⟨"user", .text (get_comparison_prompt previous_report new_report previous_date now)⟩]).content

theorem researchCallLog_zero (oracle : Nat → ApiResponse) (now : PyDateTime) :
    researchCallLog oracle now 0 = [⟨15, [researchUserMsg now]⟩] := by
  simp [researchCallLog, researchMessages]

theorem researchCallLog_succ (oracle : Nat → ApiResponse) (now : PyDateTime) (j : Nat) :
    researchCallLog oracle now (j + 1) =
      researchCallLog oracle now j ++ [⟨10, researchMessages oracle now (j + 1)⟩] := by
  simp [researchCallLog, List.range_succ]

/-- Loop invariant for `conduct_research`: from round `j` (conversation
extended `j` times, about to inspect the `j`-th response), with the service
pausing up to round `N` and answering at round `N`, the loop returns the
`N`-th response's text and the full call log, provided at least `N - j`
units of fuel remain. -/
theorem researchLoopF_spec (oracle : Nat → ApiResponse) (now : PyDateTime) (N : Nat)
    (hN : (oracle N).stop_reason ≠ "pause_turn")
    (hmin : ∀ k < N, (oracle k).stop_reason = "pause_turn") :
    ∀ fuel j, j ≤ N → N - j ≤ fuel →
      researchLoopF oracle fuel (researchMessages oracle now j) (j + 1) (oracle j)
          (researchCallLog oracle now j) =
        some (extractText (oracle N).content, researchCallLog oracle now N) := by
  intro fuel
  induction fuel with
  | zero =>
    intro j hj hfuel
    have hjN : j = N := by omega
    subst hjN
    rw [researchLoopF]
    rw [if_neg hN]
  | succ f ih =>
    intro j hj hfuel
    by_cases hjN : j = N
    · subst hjN
      rw [researchLoopF]
      rw [if_neg hN]
    · have hjlt : j < N := by omega
      rw [researchLoopF]
      rw [if_pos (hmin j hjlt)]
      have hmsgs : researchMessages oracle now j ++
          [⟨"assistant", .blocks (oracle j).content⟩, continueMsg] =
            researchMessages oracle now (j + 1) := by
        rw [researchMessages]
      have hlog : researchCallLog oracle now j ++
          [⟨10, researchMessages oracle now (j + 1)⟩] =
            researchCallLog oracle now (j + 1) := by
        rw [researchCallLog_succ]
      rw [hmsgs]
      rw [show researchCallLog oracle now j ++
          [(⟨10, researchMessages oracle now (j + 1)⟩ : ApiCall)] =
            researchCallLog oracle now (j + 1) from hlog]
      exact ih (j + 1) (by omega) (by omega)

/-- Termination direction: if the service answers (a non-`pause_turn` stop
reason) for the first time at call `N`, then with any fuel of at least `N`
the research loop returns the `N`-th response's text and makes exactly the
calls of `researchCallLog`: the first with a search allowance of 15, one
continuation call with allowance 10 per pause. -/
theorem conduct_research_terminates (oracle : Nat → ApiResponse) (now : PyDateTime)
    (N : Nat) (hN : (oracle N).stop_reason ≠ "pause_turn")
    (hmin : ∀ k < N, (oracle k).stop_reason = "pause_turn")
    (fuel : Nat) (hfuel : N ≤ fuel) :
    conduct_research oracle now fuel =
      some (extractText (oracle N).content, researchCallLog oracle now N) := by
  unfold conduct_research
  have h0 := researchLoopF_spec oracle now N hN hmin fuel 0 (by omega) (by omega)
  rw [researchMessages] at h0
  rw [researchCallLog_zero] at h0
  exact h0

theorem researchLoopF_none (oracle : Nat → ApiResponse)
    (hall : ∀ n, (oracle n).stop_reason = "pause_turn") :
    ∀ fuel msgs idx k log,
      researchLoopF oracle fuel msgs idx (oracle k) log = none := by
  intro fuel
  induction fuel with
  | zero =>
    intro msgs idx k log
    rw [researchLoopF, if_pos (hall k)]
  | succ f ih =>
    intro msgs idx k log
    rw [researchLoopF, if_pos (hall k)]
    exact ih _ _ idx _

/-- Non-termination direction: the loop has no iteration bound of its own,
so if the service pauses forever the loop never returns — no finite amount
of fuel produces a result. -/
theorem conduct_research_no_bound (oracle : Nat → ApiResponse) (now : PyDateTime)
    (hall : ∀ n, (oracle n).stop_reason = "pause_turn") (fuel : Nat) :
    conduct_research oracle now fuel = none := by
  unfold conduct_research
  exact researchLoopF_none oracle hall fuel _ _ 0 _

/-! ## Orchestrator (`main`)

`main` sequences research → load-previous → compare-if-present → render →
send → save. The three outbound effects (research outcome, comparator
outcome, send outcome) are oracle parameters; the render step is a
parameter in `runMainWith` so that the ordering facts hold for any
rendering function, and `runMain` instantiates it with the actual
`create_email_html`. The run also produces an event trace: each step's
event is appended when the step completes, except `compared`, which is
recorded at the moment the comparator is invoked (it carries the exact
arguments passed). -/

/-- Observable events of one run. -/
inductive Event where
  /-- `conduct_research` returned this report. -/
  | researched (report : String)
  /-- `load_previous_report` returned this previous record. -/
  | loadedPrevious (prev : Option (String × String))
  /-- `compare_reports` was invoked with exactly these arguments. -/
  | compared (previous_report new_report previous_date : String)
  /-- `create_email_html` returned, with this subject line. -/
  | rendered (subject : String)
  /-- `send_email` completed successfully for this subject. -/
  | sent (subject : String)
  /-- `save_report` persisted this report. -/
  | saved (report : String)
deriving DecidableEq, Repr

/-- Steps 4-6 of `main`: render, send, persist. The state is written only
after a successful send, by `save_report`. -/
def runMainTail (renderFn : Option String → String → Bool → Except PyError (String × String))
    (sendFn : String → String → Except PyError Unit)
    (now : PyDateTime) (fs : FS) (new_report : String) (comparison : Option String)
    (is_first_run : Bool) (evs : List Event) :
    Except PyError Unit × FS × List Event :=
  match renderFn comparison new_report is_first_run with
  | .error e => (.error e, fs, evs)
  | .ok (html_content, subject) =>
    match sendFn html_content subject with
    | .error e => (.error e, fs, evs ++ [.rendered subject])
    | .ok _ =>
      (.ok (), save_report fs now new_report,
        evs ++ [.rendered subject, .sent subject, .saved new_report])

/-- `main` with the rendering function as a parameter. -/
def runMainWith (research : Except PyError String)
    (compareFn : String → String → String → Except PyError String)
    (renderFn : Option String → String → Bool → Except PyError (String × String))
    (sendFn : String → String → Except PyError Unit)
    (now : PyDateTime) (fs : FS) :
    Except PyError Unit × FS × List Event :=
  match research with
  | .error e => (.error e, fs, [])
  | .ok new_report =>
    match load_previous_report fs with
    | .error e => (.error e, fs, [.researched new_report])
    | .ok previous =>
      match previous with
      | some (previous_report, previous_date) =>
        match compareFn previous_report new_report previous_date with
        | .error e =>
          (.error e, fs, [.researched new_report, .loadedPrevious previous,
            .compared previous_report new_report previous_date])
        | .ok comparison =>
          runMainTail renderFn sendFn now fs new_report (some comparison) false
            [.researched new_report, .loadedPrevious previous,
              .compared previous_report new_report previous_date]
      | none =>
        runMainTail renderFn sendFn now fs new_report none true
          [.researched new_report, .loadedPrevious none]

/-- `main` as written: the render step is the actual `create_email_html`. -/
def runMain (research : Except PyError String)
    (compareFn : String → String → String → Except PyError String)
    (sendFn : String → String → Except PyError Unit)
    (now : PyDateTime) (fs : FS) :
    Except PyError Unit × FS × List Event :=
  runMainWith research compareFn (create_email_html now) sendFn now fs

/-! ## Helpers for the claim theorems -/

/-- Whether an event is a successful send. -/
def Event.isSent : Event → Bool
  | .sent _ => true
  | _ => false

/-- Whether an event is a persistence of a report. -/
def Event.isSaved : Event → Bool
  | .saved _ => true
  | _ => false

/-- Whether an event is a comparator invocation. -/
def Event.isCompared : Event → Bool
  | .compared _ _ _ => true
  | _ => false

/-- A fixed sample instant used for concrete evaluations. -/
def sampleNow : PyDateTime := ⟨2025, 10, 12, 9, 30, 0, 0⟩

/-- Substring occurrence on character lists. -/
def occursIn (pat : List Char) : List Char → Bool
  | [] => pat.isEmpty
  | c :: rest => pat.isPrefixOf (c :: rest) || occursIn pat rest

theorem create_email_html_error (now : PyDateTime) (c : Option String) (r : String)
    (f : Bool) (h : c ≠ none ∨ f = true) :
    create_email_html now c r f = .error (.nameError "timedelta") := by
  unfold create_email_html
  rw [if_neg (by rcases h with h | h <;> simp [h])]
  rw [if_neg (by decide)]

theorem runMainTail_actual (sendFn : String → String → Except PyError Unit)
    (now : PyDateTime) (fs : FS) (r : String) (c : Option String) (f : Bool)
    (evs : List Event) (h : c ≠ none ∨ f = true) :
    runMainTail (create_email_html now) sendFn now fs r c f evs =
      (.error (.nameError "timedelta"), fs, evs) := by
  unfold runMainTail
  rw [create_email_html_error now c r f h]

theorem runMainTail_send_fail
    (renderFn : Option String → String → Bool → Except PyError (String × String))
    (sendFn : String → String → Except PyError Unit)
    (now : PyDateTime) (fs : FS) (r : String) (c : Option String) (f : Bool)
    (evs : List Event) (hsend : ∀ h s, sendFn h s ≠ .ok ()) :
    (runMainTail renderFn sendFn now fs r c f evs).2.1 = fs ∧
      (runMainTail renderFn sendFn now fs r c f evs).2.2.filter Event.isSaved =
        evs.filter Event.isSaved := by
  unfold runMainTail
  split
  · exact ⟨rfl, rfl⟩
  · split
    · refine ⟨rfl, ?_⟩
      simp [Event.isSaved]
    · next a heq =>
      exact absurd heq (hsend _ _)

theorem runMainTail_saved
    (renderFn : Option String → String → Bool → Except PyError (String × String))
    (sendFn : String → String → Except PyError Unit)
    (now : PyDateTime) (fs : FS) (r : String) (c : Option String) (f : Bool)
    (evs : List Event) (hevs : ∀ r', Event.saved r' ∉ evs) (r' : String)
    (hmem : Event.saved r' ∈ (runMainTail renderFn sendFn now fs r c f evs).2.2) :
    ∃ pre s, (runMainTail renderFn sendFn now fs r c f evs).2.2 =
        pre ++ [Event.sent s, Event.saved r'] ∧
      (runMainTail renderFn sendFn now fs r c f evs).2.1 = save_report fs now r' ∧
      (runMainTail renderFn sendFn now fs r c f evs).1 = .ok () := by
  unfold runMainTail at hmem ⊢
  split at hmem
  · exact absurd hmem (hevs r')
  · next html subj heqr =>
    split at hmem
    · next e heqs =>
      simp only [List.mem_append, List.mem_singleton] at hmem
      rcases hmem with hmem | hmem
      · exact absurd hmem (hevs r')
      · exact absurd hmem (by simp)
    · next a heqs =>
      rw [List.mem_append] at hmem
      have hr2 : r' = r := by
        rcases hmem with hmem | hmem
        · exact absurd hmem (hevs r')
        · simpa using hmem
      subst hr2
      refine ⟨evs ++ [Event.rendered subj], subj, by simp, by simp, by simp⟩

/-! ## Claims -/

/-- C2 counterexample: the claim says every input raises `NameError`, but
on the input with an absent comparison and the first-run flag clear,
`create_email_html` crashes earlier, inside `md_to_html(None)`, with a
`TypeError` — not a `NameError`. -/
theorem claim_C2_counterexample :
    create_email_html sampleNow none "x" false = .error .typeError ∧
      Except.error (α := String × String) PyError.typeError ≠
        .error (.nameError "timedelta") := by
  constructor
  · decide
  · decide

/-- C2 (amended): `timedelta` does not resolve in `create_email_html` — it
is a local of `main` only — so for every input whose comparison branch can
be built (a present comparison or the first-run flag set, which covers
everything `main` can pass), `create_email_html` raises
`NameError: name 'timedelta' is not defined`; on the remaining corner it
raises `TypeError` even earlier. Hence no pipeline run ever sends or saves
anything. -/
theorem claim_C2 :
    (∀ (now : PyDateTime) (c : Option String) (r : String) (f : Bool),
      (c ≠ none ∨ f = true) →
        create_email_html now c r f = .error (.nameError "timedelta")) ∧
    resolvesInCreateEmailHtml "timedelta" = false ∧
    mainLocalNames.contains "timedelta" = true ∧
    (∀ research compareFn sendFn (now : PyDateTime) (fs : FS),
      (runMain research compareFn sendFn now fs).2.2.filter Event.isSent = [] ∧
        (runMain research compareFn sendFn now fs).2.2.filter Event.isSaved = []) := by
  refine ⟨fun now c r f h => create_email_html_error now c r f h, by decide, by decide, ?_⟩
  intro research compareFn sendFn now fs
  unfold runMain runMainWith
  split
  · exact ⟨rfl, rfl⟩
  · split
    · simp [Event.isSent, Event.isSaved]
    · split
      · split
        · simp [Event.isSent, Event.isSaved]
        · next cmp heq =>
          rw [runMainTail_actual sendFn now fs _ (some cmp) false _ (Or.inl (by simp))]
          simp [Event.isSent, Event.isSaved]
      · rw [runMainTail_actual sendFn now fs _ none true _ (Or.inr rfl)]
        simp [Event.isSent, Event.isSaved]

/-- C2 witness: the amended claim at a concrete input with a present
comparison. -/
theorem claim_C2_witness :
    (some "cmp" ≠ (none : Option String) ∨ false = true) ∧
      create_email_html sampleNow (some "cmp") "rep" false =
        .error (.nameError "timedelta") :=
  ⟨Or.inl (by decide), claim_C2.1 sampleNow (some "cmp") "rep" false (Or.inl (by decide))⟩

set_option maxRecDepth 1000000 in
/-- C1: on a run with no previous record, the comparator is never invoked
and the branch taken computes the first-run subject line and an empty
comparison section; but the function that should return the rendered email
raises `NameError` instead (the `timedelta` slip), so no email is actually
rendered. The last conjunct checks on the spec's example report that the
body the code was about to build contains no "Changes Since Last Report"
block. -/
theorem claim_C1 :
    (∀ compareFn sendFn (now : PyDateTime) (fs : FS) (r : String),
      getFile fs latestReportPath = none →
        (runMain (.ok r) compareFn sendFn now fs).2.2.filter Event.isCompared = []) ∧
    (∀ (now : PyDateTime) (r : String),
      (renderPieces now none r true).subject = firstRunSubject ∧
        (renderPieces now none r true).comparisonSection = "") ∧
    (∀ (now : PyDateTime) (r : String),
      create_email_html now none r true = .error (.nameError "timedelta")) ∧
    occursIn "Changes Since Last Report".data
      (renderPieces sampleNow none "AUA rose 5%." true).html.data = false := by
  refine ⟨?_, ?_, ?_, ?_⟩
  · intro compareFn sendFn now fs r h
    unfold runMain runMainWith
    have hload : load_previous_report fs = .ok none := by
      unfold load_previous_report
      rw [h]
    rw [hload]
    dsimp only
    rw [runMainTail_actual sendFn now fs r none true _ (Or.inr rfl)]
    simp [Event.isCompared]
  · intro now r
    exact ⟨rfl, rfl⟩
  · intro now r
    exact create_email_html_error now none r true (Or.inr rfl)
  · decide

/-- C1 witness: the comparator-skip conjunct at a concrete empty store. -/
theorem claim_C1_witness :
    getFile ([] : FS) latestReportPath = none ∧
      (runMain (.ok "AUA rose 5%.") (fun _ _ _ => .ok "c") (fun _ _ => .ok ())
          sampleNow ([] : FS)).2.2.filter Event.isCompared = [] :=
  ⟨rfl, claim_C1.1 (fun _ _ _ => .ok "c") (fun _ _ => .ok ()) sampleNow [] "AUA rose 5%." rfl⟩

set_option maxRecDepth 1000000 in
/-- C3: when a previous record exists, `compare_reports` is invoked with
exactly the stored previous text, the new report and the stored previous
date (the event trace records the exact arguments); the branch taken
computes a comparison section that wraps `md_to_html` of the comparator's
output; but the function that should return the rendered email raises
`NameError` instead (the `timedelta` slip), so the email carrying that
section is never produced. The last conjunct checks on a concrete input
that the body the code was about to build does contain the
"Changes Since Last Report" block. -/
theorem claim_C3 :
    (∀ compareFn sendFn (now : PyDateTime) (fs : FS) (r p d : String),
      load_previous_report fs = .ok (some (p, d)) →
        (runMain (.ok r) compareFn sendFn now fs).2.2.filter Event.isCompared =
          [.compared p r d]) ∧
    (∀ (now : PyDateTime) (cmp r : String),
      (renderPieces now (some cmp) r false).comparisonSection =
          comparisonSectionHtml (md_to_html cmp) ∧
        (renderPieces now (some cmp) r false).subject = monthlySubject) ∧
    (∀ (now : PyDateTime) (cmp r : String),
      create_email_html now (some cmp) r false = .error (.nameError "timedelta")) ∧
    occursIn "Changes Since Last Report".data
      (renderPieces sampleNow (some "AUA is flat.") "AUA rose 5%." false).html.data = true := by
  refine ⟨?_, ?_, ?_, ?_⟩
  · intro compareFn sendFn now fs r p d h
    unfold runMain runMainWith
    rw [h]
    dsimp only
    rcases hc : compareFn p r d with e | cmp
    · simp [Event.isCompared]
    · dsimp only
      rw [runMainTail_actual sendFn now fs r (some cmp) false _ (Or.inl (by simp))]
      simp [Event.isCompared]
  · intro now cmp r
    exact ⟨rfl, rfl⟩
  · intro now cmp r
    exact create_email_html_error now (some cmp) r false (Or.inl (by simp))
  · decide

/-- C3 witness: a store holding a just-saved record; the run's trace records
one comparator invocation carrying exactly the stored text, the new text
and the stored date. -/
theorem claim_C3_witness :
    load_previous_report (save_report ([] : FS) sampleNow "AUA flat.") =
        .ok (some ("AUA flat.", strftimeDMY sampleNow)) ∧
      (runMain (.ok "AUA rose 5%.") (fun _ _ _ => .ok "c") (fun _ _ => .ok ())
          sampleNow (save_report ([] : FS) sampleNow "AUA flat.")).2.2.filter
            Event.isCompared =
        [.compared "AUA flat." "AUA rose 5%." (strftimeDMY sampleNow)] :=
  ⟨load_after_save [] sampleNow "AUA flat.",
    claim_C3.1 (fun _ _ _ => .ok "c") (fun _ _ => .ok ()) sampleNow
      (save_report [] sampleNow "AUA flat.") "AUA rose 5%." "AUA flat."
      (strftimeDMY sampleNow) (load_after_save [] sampleNow "AUA flat.")⟩

/-- C4: after `save_report(r)`, `load_previous_report` returns a present
result whose report component is exactly `r` (byte-for-byte through the
JSON file) and whose date is the saved date string. -/
theorem claim_C4 (fs : FS) (now : PyDateTime) (r : String) :
    load_previous_report (save_report fs now r) = .ok (some (r, strftimeDMY now)) :=
  load_after_save fs now r

/-- C9: after `save_report`, the latest slot and that day's archive file
hold the same content, both serialized from the same record (same date
string, same timestamp, same report). -/
theorem claim_C9 (fs : FS) (now : PyDateTime) (r : String) :
    getFile (save_report fs now r) latestReportPath =
        some (jsonDumpRecord (mkRecord now r)) ∧
      getFile (save_report fs now r) (archivePath now) =
        some (jsonDumpRecord (mkRecord now r)) ∧
      getFile (save_report fs now r) latestReportPath =
        getFile (save_report fs now r) (archivePath now) ∧
      mkRecord now r = ⟨strftimeDMY now, isoformat now, r⟩ := by
  have h1 : getFile (save_report fs now r) latestReportPath =
      some (jsonDumpRecord (mkRecord now r)) := by
    unfold save_report
    rw [getFile_setFile_other _ _ _ _ ((archivePath_ne_latest now).symm),
      getFile_setFile_same]
  have h2 : getFile (save_report fs now r) (archivePath now) =
      some (jsonDumpRecord (mkRecord now r)) := by
    unfold save_report
    rw [getFile_setFile_same]
  exact ⟨h1, h2, by rw [h1, h2], rfl⟩

/-- C10: a latest-record file that is a JSON object but lacks the `report`
or `date` keys does not make the load fail: `dict.get` defaults give the
empty string and `"Unknown"`; and the load returns an absent result exactly
when the file itself does not exist. -/
theorem claim_C10 :
    (∀ (fs : FS) (content : String) (obj : List (String × String)),
      getFile fs latestReportPath = some content →
        parseJsonObject content = some obj →
        lookupLast obj "report" = none →
        lookupLast obj "date" = none →
        load_previous_report fs = .ok (some ("", "Unknown"))) ∧
    (∀ fs : FS,
      load_previous_report fs = .ok none ↔ getFile fs latestReportPath = none) := by
  constructor
  · intro fs content obj hget hparse hrep hdate
    unfold load_previous_report
    rw [hget]
    dsimp only
    rw [hparse]
    dsimp only
    rw [hrep, hdate]
    rfl
  · intro fs
    unfold load_previous_report
    rcases hget : getFile fs latestReportPath with _ | content
    · simp
    · rcases hparse : parseJsonObject content with _ | obj
      · dsimp only
        rw [hparse]
        simp
      · dsimp only
        rw [hparse]
        simp

set_option maxRecDepth 1000000 in
set_option maxHeartbeats 2000000 in
/-- C10 witness: a latest-record file holding the empty JSON object loads
as defaulted values, and an empty store loads as absent. -/
theorem claim_C10_witness :
    getFile [(latestReportPath, "\x7b\x7d")] latestReportPath = some "\x7b\x7d" ∧
      parseJsonObject "\x7b\x7d" = some [] ∧
      load_previous_report [(latestReportPath, "\x7b\x7d")] = .ok (some ("", "Unknown")) ∧
      load_previous_report ([] : FS) = .ok none :=
  ⟨by decide, by decide,
    claim_C10.1 [(latestReportPath, "\x7b\x7d")] "\x7b\x7d" [] (by decide) (by decide) rfl rfl,
    (claim_C10.2 []).mpr rfl⟩

set_option maxRecDepth 1000000 in
set_option maxHeartbeats 2000000 in
/-- C8: rendering as written is deterministic — the subject line depends
only on the first-run flag (not on the clock), the HTML body is the fixed
document skeleton around the same intro, comparison section and converted
report, differing between two instants only in the two embedded date
strings, and the actual `create_email_html` returns identical (error)
results for identical comparison/report/flag inputs at any two instants —
but it never yields a subject or HTML at all: every call returns an
exception. -/
theorem claim_C8 :
    (∀ (t1 t2 : PyDateTime) (c : Option String) (r : String) (f : Bool),
      (renderPieces t1 c r f).subject = (renderPieces t2 c r f).subject ∧
        create_email_html t1 c r f = create_email_html t2 c r f) ∧
    (∀ (now : PyDateTime) (c : Option String) (r : String) (f : Bool),
      (renderPieces now c r f).html =
          htmlDoc (strftimeDMY now) (renderPieces now c r f).intro
            (renderPieces now c r f).comparisonSection (md_to_html r)
            (strftimeDMY (firstOfNextMonth now)) ∧
        (renderPieces now c r f).intro = (renderPieces sampleNow c r f).intro ∧
        (renderPieces now c r f).comparisonSection =
          (renderPieces sampleNow c r f).comparisonSection) ∧
    (∀ (now : PyDateTime) (c : Option String) (r : String) (f : Bool),
      ∃ e, create_email_html now c r f = .error e) := by
  refine ⟨?_, ?_, ?_⟩
  · intro t1 t2 c r f
    constructor
    · cases f <;> rfl
    · by_cases h : f = false ∧ c = none
      · unfold create_email_html
        rw [if_pos h, if_pos h]
      · have h' : c ≠ none ∨ f = true := by
          rcases Decidable.em (c = none) with hc | hc
          · right
            rcases Decidable.em (f = true) with hf | hf
            · exact hf
            · exact absurd ⟨by simpa using hf, hc⟩ h
          · left
            exact hc
        rw [create_email_html_error t1 c r f h', create_email_html_error t2 c r f h']
  · intro now c r f
    cases f <;> exact ⟨rfl, rfl, rfl⟩
  · intro now c r f
    by_cases h : f = false ∧ c = none
    · refine ⟨.typeError, ?_⟩
      unfold create_email_html
      rw [if_pos h]
    · refine ⟨.nameError "timedelta", ?_⟩
      apply create_email_html_error
      rcases Decidable.em (c = none) with hc | hc
      · right
        rcases Decidable.em (f = true) with hf | hf
        · exact hf
        · exact absurd ⟨by simpa using hf, hc⟩ h
      · left
        exact hc

/-- C5: for every rendering function (in particular the actual one) and
every outcome of the other steps, persistence is the final step and happens
strictly after a successful send: if the send step cannot succeed the
filesystem is unchanged and nothing is saved; and whenever a save event
occurs, the trace ends in a successful send immediately followed by the
save, the run result is success, and the final state is exactly
`save_report` of the initial state. -/
theorem claim_C5 :
    (∀ research compareFn renderFn sendFn (now : PyDateTime) (fs : FS),
      (∀ h s, sendFn h s ≠ .ok ()) →
        (runMainWith research compareFn renderFn sendFn now fs).2.1 = fs ∧
          (runMainWith research compareFn renderFn sendFn now fs).2.2.filter
            Event.isSaved = []) ∧
    (∀ research compareFn renderFn sendFn (now : PyDateTime) (fs : FS) (r : String),
      Event.saved r ∈ (runMainWith research compareFn renderFn sendFn now fs).2.2 →
        ∃ pre s, (runMainWith research compareFn renderFn sendFn now fs).2.2 =
            pre ++ [Event.sent s, Event.saved r] ∧
          (runMainWith research compareFn renderFn sendFn now fs).2.1 =
            save_report fs now r ∧
          (runMainWith research compareFn renderFn sendFn now fs).1 = .ok ()) := by
  constructor
  · intro research compareFn renderFn sendFn now fs hsend
    unfold runMainWith
    split
    · exact ⟨rfl, rfl⟩
    · split
      · exact ⟨rfl, rfl⟩
      · split
        · split
          · exact ⟨rfl, rfl⟩
          · constructor
            · exact (runMainTail_send_fail renderFn sendFn now fs _ _ false _ hsend).1
            · rw [(runMainTail_send_fail renderFn sendFn now fs _ _ false _ hsend).2]
              simp [Event.isSaved]
        · constructor
          · exact (runMainTail_send_fail renderFn sendFn now fs _ _ true _ hsend).1
          · rw [(runMainTail_send_fail renderFn sendFn now fs _ _ true _ hsend).2]
            simp [Event.isSaved]
  · intro research compareFn renderFn sendFn now fs r hmem
    unfold runMainWith at hmem ⊢
    split at hmem
    · simp at hmem
    · split at hmem
      · simp at hmem
      · split at hmem
        · split at hmem
          · simp at hmem
          · exact runMainTail_saved renderFn sendFn now fs _ _ false _ (by simp) r hmem
        · exact runMainTail_saved renderFn sendFn now fs _ _ true _ (by simp) r hmem

/-- C5 witness: with a sender that always fails, a concrete run leaves the
empty store unchanged and saves nothing; with a sender that succeeds, the
concrete run's trace ends in the send followed by the save. -/
theorem claim_C5_witness :
    ((runMainWith (.ok "r") (fun _ _ _ => .ok "c") (fun _ _ _ => .ok ("h", "s"))
          (fun _ _ => .error .smtpError) sampleNow ([] : FS)).2.1 = ([] : FS) ∧
        (runMainWith (.ok "r") (fun _ _ _ => .ok "c") (fun _ _ _ => .ok ("h", "s"))
          (fun _ _ => .error .smtpError) sampleNow ([] : FS)).2.2.filter
            Event.isSaved = []) ∧
      (∃ pre s, (runMainWith (.ok "r") (fun _ _ _ => .ok "c")
            (fun _ _ _ => .ok ("h", "s")) (fun _ _ => .ok ()) sampleNow ([] : FS)).2.2 =
          pre ++ [Event.sent s, Event.saved "r"] ∧
        (runMainWith (.ok "r") (fun _ _ _ => .ok "c") (fun _ _ _ => .ok ("h", "s"))
            (fun _ _ => .ok ()) sampleNow ([] : FS)).2.1 =
          save_report ([] : FS) sampleNow "r" ∧
        (runMainWith (.ok "r") (fun _ _ _ => .ok "c") (fun _ _ _ => .ok ("h", "s"))
            (fun _ _ => .ok ()) sampleNow ([] : FS)).1 = .ok ()) :=
  ⟨claim_C5.1 (.ok "r") (fun _ _ _ => .ok "c") (fun _ _ _ => .ok ("h", "s"))
      (fun _ _ => .error .smtpError) sampleNow [] (fun _ _ h => nomatch h),
    claim_C5.2 (.ok "r") (fun _ _ _ => .ok "c") (fun _ _ _ => .ok ("h", "s"))
      (fun _ _ => .ok ()) sampleNow [] "r" (by decide)⟩

/-- Number of directory entries at a path (one per physical file). -/
def countKey : FS → String → Nat
  | [], _ => 0
  | (q, _) :: rest, p => (if q = p then 1 else 0) + countKey rest p

theorem countKey_setFile_other (fs : FS) (p v q : String) (h : q ≠ p) :
    countKey (setFile fs p v) q = countKey fs q := by
  induction fs with
  | nil =>
    simp only [setFile, countKey]
    rw [if_neg (fun hh => h (Eq.symm hh))]
  | cons hd tl ih =>
    obtain ⟨a, b⟩ := hd
    by_cases ha : a = p
    · subst ha
      simp only [setFile, if_pos rfl, countKey]
    · simp only [setFile, if_neg ha, countKey, ih]

theorem countKey_setFile_self (fs : FS) (p v : String) (h : countKey fs p ≤ 1) :
    countKey (setFile fs p v) p = 1 := by
  induction fs with
  | nil => simp [countKey, setFile]
  | cons hd tl ih =>
    obtain ⟨a, b⟩ := hd
    by_cases ha : a = p
    · subst ha
      simp only [setFile, if_pos rfl, countKey] at h ⊢
      simp at h ⊢
      omega
    · simp only [setFile, if_neg ha, countKey, if_neg ha] at h ⊢
      rw [Nat.zero_add] at h ⊢
      exact ih h

/-- C6: archive files are named by the dash-separated four-digit year,
two-digit month and two-digit day; saving on two different calendar days
writes two distinct archive files, each holding its own save's record;
saving twice on the same calendar day leaves exactly one archive file for
that day, holding the second save's content (last-write-wins, no error). -/
theorem claim_C6 :
    (∀ (fs : FS) (t1 t2 : PyDateTime) (r1 r2 : String),
      t1.year ≤ 9999 → t2.year ≤ 9999 → t1.month ≤ 99 → t2.month ≤ 99 →
        t1.day ≤ 99 → t2.day ≤ 99 →
        ¬(t1.year = t2.year ∧ t1.month = t2.month ∧ t1.day = t2.day) →
        archivePath t1 ≠ archivePath t2 ∧
          getFile (save_report (save_report fs t1 r1) t2 r2) (archivePath t1) =
            some (jsonDumpRecord (mkRecord t1 r1)) ∧
          getFile (save_report (save_report fs t1 r1) t2 r2) (archivePath t2) =
            some (jsonDumpRecord (mkRecord t2 r2))) ∧
    (∀ (fs : FS) (t1 t2 : PyDateTime) (r1 r2 : String),
      t1.year = t2.year → t1.month = t2.month → t1.day = t2.day →
        countKey fs (archivePath t2) ≤ 1 →
        archivePath t1 = archivePath t2 ∧
          getFile (save_report (save_report fs t1 r1) t2 r2) (archivePath t2) =
            some (jsonDumpRecord (mkRecord t2 r2)) ∧
          countKey (save_report (save_report fs t1 r1) t2 r2) (archivePath t2) = 1) ∧
    (∀ t : PyDateTime,
      archivePath t = "reports/report_" ++ strftimeYMD t ++ ".json" ∧
        (strftimeYMD t).data = pad4 t.year ++ '-' :: pad2 t.month ++ '-' :: pad2 t.day) := by
  refine ⟨?_, ?_, fun t => ⟨rfl, rfl⟩⟩
  · intro fs t1 t2 r1 r2 h1y h2y h1m h2m h1d h2d hdiff
    have hne : archivePath t1 ≠ archivePath t2 := fun h =>
      hdiff (archivePath_inj t1 t2 h1y h2y h1m h2m h1d h2d h)
    refine ⟨hne, ?_, ?_⟩
    · unfold save_report
      rw [getFile_setFile_other _ _ _ _ hne,
        getFile_setFile_other _ _ _ _ (archivePath_ne_latest t1),
        getFile_setFile_same]
    · unfold save_report
      rw [getFile_setFile_same]
  · intro fs t1 t2 r1 r2 hy hm hd hcount
    have heq : archivePath t1 = archivePath t2 := archivePath_congr t1 t2 hy hm hd
    refine ⟨heq, ?_, ?_⟩
    · unfold save_report
      rw [getFile_setFile_same]
    · unfold save_report
      apply countKey_setFile_self
      rw [countKey_setFile_other _ _ _ _ (archivePath_ne_latest t2)]
      rw [heq, countKey_setFile_self]
      rw [countKey_setFile_other _ _ _ _ (archivePath_ne_latest t2)]
      exact hcount

/-- C6 witness: saves on 12 and 13 October 2025 produce two distinct
archive files with their own contents; two saves on 12 October leave
exactly one archive entry for that day holding the second content. -/
theorem claim_C6_witness :
    (archivePath sampleNow ≠ archivePath ⟨2025, 10, 13, 9, 30, 0, 0⟩ ∧
      getFile (save_report (save_report [] sampleNow "A") ⟨2025, 10, 13, 9, 30, 0, 0⟩ "B")
          (archivePath sampleNow) =
        some (jsonDumpRecord (mkRecord sampleNow "A")) ∧
      getFile (save_report (save_report [] sampleNow "A") ⟨2025, 10, 13, 9, 30, 0, 0⟩ "B")
          (archivePath ⟨2025, 10, 13, 9, 30, 0, 0⟩) =
        some (jsonDumpRecord (mkRecord ⟨2025, 10, 13, 9, 30, 0, 0⟩ "B"))) ∧
    (archivePath sampleNow = archivePath sampleNow ∧
      getFile (save_report (save_report [] sampleNow "A") sampleNow "B")
          (archivePath sampleNow) =
        some (jsonDumpRecord (mkRecord sampleNow "B")) ∧
      countKey (save_report (save_report [] sampleNow "A") sampleNow "B")
        (archivePath sampleNow) = 1) :=
  ⟨claim_C6.1 [] sampleNow ⟨2025, 10, 13, 9, 30, 0, 0⟩ "A" "B" (by decide) (by decide)
      (by decide) (by decide) (by decide) (by decide) (by decide),
    claim_C6.2.1 [] sampleNow sampleNow "A" "B" rfl rfl rfl (by decide)⟩

/-- C7: the first service call allows 15 search uses; on every `pause_turn`
response the call is re-issued with the conversation extended by the prior
assistant turn and the continue instruction, with an allowance of 10; the
loop stops exactly at the first non-`pause_turn` response (making one call
per pause plus the initial one), and when the service pauses forever no
amount of fuel makes the loop return — the code contains no iteration
bound. -/
theorem claim_C7 :
    (∀ (oracle : Nat → ApiResponse) (now : PyDateTime) (N fuel : Nat),
      (oracle N).stop_reason ≠ "pause_turn" →
        (∀ k < N, (oracle k).stop_reason = "pause_turn") →
        N ≤ fuel →
        conduct_research oracle now fuel =
            some (extractText (oracle N).content, researchCallLog oracle now N) ∧
          (researchCallLog oracle now N).head? = some ⟨15, [researchUserMsg now]⟩ ∧
          (researchCallLog oracle now N).length = N + 1 ∧
          (∀ i, i < N → (researchCallLog oracle now N)[i + 1]? =
            some ⟨10, researchMessages oracle now (i + 1)⟩)) ∧
    (∀ (oracle : Nat → ApiResponse) (now : PyDateTime) (i : Nat),
      researchMessages oracle now (i + 1) =
        researchMessages oracle now i ++
          [⟨"assistant", .blocks (oracle i).content⟩, continueMsg]) ∧
    (∀ (oracle : Nat → ApiResponse) (now : PyDateTime) (fuel : Nat),
      (∀ n, (oracle n).stop_reason = "pause_turn") →
        conduct_research oracle now fuel = none) := by
  refine ⟨?_, fun oracle now i => rfl, fun oracle now fuel h =>
    conduct_research_no_bound oracle now h fuel⟩
  intro oracle now N fuel hN hmin hfuel
  refine ⟨conduct_research_terminates oracle now N hN hmin fuel hfuel, rfl, ?_, ?_⟩
  · simp [researchCallLog]
  · intro i hi
    simp [researchCallLog, List.getElem?_map, List.getElem?_range, hi]

/-- C7 witness: a service that pauses once then answers terminates after
one continuation (initial call allowance 15, one continuation allowance
10); a service that always pauses never returns, whatever fuel. -/
theorem claim_C7_witness :
    (conduct_research (fun n => if n = 0 then (⟨"pause_turn", [ContentBlock.text "a"]⟩ : ApiResponse) else ⟨"end_turn", [ContentBlock.text "b"]⟩) sampleNow 1 =
        some (extractText ((fun n => if n = 0 then (⟨"pause_turn", [ContentBlock.text "a"]⟩ : ApiResponse) else ⟨"end_turn", [ContentBlock.text "b"]⟩) 1).content,
          researchCallLog (fun n => if n = 0 then (⟨"pause_turn", [ContentBlock.text "a"]⟩ : ApiResponse) else ⟨"end_turn", [ContentBlock.text "b"]⟩) sampleNow 1) ∧
      (researchCallLog (fun n => if n = 0 then (⟨"pause_turn", [ContentBlock.text "a"]⟩ : ApiResponse) else ⟨"end_turn", [ContentBlock.text "b"]⟩) sampleNow 1).head? =
        some ⟨15, [researchUserMsg sampleNow]⟩ ∧
      (researchCallLog (fun n => if n = 0 then (⟨"pause_turn", [ContentBlock.text "a"]⟩ : ApiResponse) else ⟨"end_turn", [ContentBlock.text "b"]⟩) sampleNow 1).length = 1 + 1 ∧
      (∀ i, i < 1 → (researchCallLog (fun n => if n = 0 then (⟨"pause_turn", [ContentBlock.text "a"]⟩ : ApiResponse) else ⟨"end_turn", [ContentBlock.text "b"]⟩) sampleNow 1)[i + 1]? =
        some ⟨10, researchMessages (fun n => if n = 0 then (⟨"pause_turn", [ContentBlock.text "a"]⟩ : ApiResponse) else ⟨"end_turn", [ContentBlock.text "b"]⟩) sampleNow (i + 1)⟩)) ∧
    conduct_research (fun _ => (⟨"pause_turn", ([] : List ContentBlock)⟩ : ApiResponse)) sampleNow 3 = none :=
  ⟨claim_C7.1 (fun n => if n = 0 then (⟨"pause_turn", [ContentBlock.text "a"]⟩ : ApiResponse) else ⟨"end_turn", [ContentBlock.text "b"]⟩) sampleNow 1 1 (by decide) (by decide) (by decide),
    claim_C7.2.2 (fun _ => (⟨"pause_turn", ([] : List ContentBlock)⟩ : ApiResponse)) sampleNow 3 (fun n => rfl)⟩
